import Mathlib

/-!
Verification development for the 2D FLIP smoke solver in
`src/VS2010/8-FLIP/Fluid.cpp` (incremental-fluids, 8-FLIP variant).

The C++ code works on `double` arrays.  The shallow embedding models the
numbers by an arbitrary linear ordered field (instantiated at `ℚ` for
concrete evaluations and at `ℝ` where the code computes square roots),
and flat arrays by total functions `ℤ → α` indexed exactly as the C code
indexes its flat buffers.  Decimal literals of the source are written as
the exact rationals they denote (0.5 = 1/2, 1.001 = 1001/1000, ...).
Every definition is a direct transcription of the corresponding function
of Fluid.cpp; loops whose iterations are independent are written
pointwise, loops whose iterations interact are written as `List.foldl`
over the exact iteration ranges of the C loops.
-/

set_option maxHeartbeats 1000000
set_option linter.unusedVariables false

namespace IncrementalFluids

/-- Cell classification, the `CellType` enum of Fluid.cpp. -/
inductive CellType where
  | FLUID
  | SOLID
  | EMPTY
deriving DecidableEq, Repr

/-- Truncation toward zero: the semantics of the C cast `(int)x` on a
floating-point value. -/
def trunc {α : Type} [LinearOrderedField α] [FloorRing α] (x : α) : ℤ :=
  if x < 0 then -Int.floor (-x) else Int.floor x

/-- Half-open integer interval [a, b), in increasing order: the index
sequence of a C loop `for (i = a; i < b; i++)`. -/
def intRange (a b : ℤ) : List ℤ :=
  (List.range (b - a).toNat).map (fun i => a + (i : ℤ))

/-- Pointwise array write: `f[i] = v` on a flat buffer modelled as a
total function. -/
def upd {α : Type} (f : ℤ → α) (i : ℤ) (v : α) : ℤ → α :=
  fun j => if j = i then v else f j

/-- Pointwise array accumulation: `f[i] += v`. -/
def bump {α : Type} [Add α] (f : ℤ → α) (i : ℤ) (v : α) : ℤ → α :=
  fun j => if j = i then f j + v else f j

/-- The private helper `FluidQuantity::lerp(a, b, x)` of Fluid.cpp:
plain linear interpolation `a*(1 - x) + b*x`. -/
def lerp1 {α : Type} [Field α] (a b x : α) : α :=
  a * (1 - x) + b * x

/-- The template helper `sgn` of Fluid.cpp: `(0 < v) - (v < 0)`,
returned as the int it is used as (an index offset). -/
def sgn {α : Type} [LinearOrderedField α] (v : α) : ℤ :=
  (if 0 < v then 1 else 0) - (if v < 0 then 1 else 0)

section Occupancy

variable {α : Type} [LinearOrderedField α]

/-- `triangleOccupancy(out1, in, out2)` of Fluid.cpp:
`0.5*in*in/((out1 - in)*(out2 - in))`. -/
def triangleOccupancy (out1 in1 out2 : α) : α :=
  (1/2) * in1 * in1 / ((out1 - in1) * (out2 - in1))

/-- `trapezoidOccupancy(out1, out2, in1, in2)` of Fluid.cpp:
`0.5*(-in1/(out1 - in1) - in2/(out2 - in2))`. -/
def trapezoidOccupancy (out1 out2 in1 in2 : α) : α :=
  (1/2) * (-in1 / (out1 - in1) - in2 / (out2 - in2))

/-- The 4-bit case index built by the loop in `occupancy`: bit i is set
when `ds[i] < 0`, with `ds = {d11, d12, d22, d21}`. -/
def occCase (d11 d12 d21 d22 : α) : ℕ :=
  (if d11 < 0 then 1 else 0) + (if d12 < 0 then 2 else 0) +
  (if d22 < 0 then 4 else 0) + (if d21 < 0 then 8 else 0)

/-- `occupancy(d11, d12, d21, d22)` of Fluid.cpp: the 16-case
marching-squares fraction of the dual cell covered by the solid
(negative distances are inside).  The switch of the C function is
transcribed case by case; the unreachable default returns 0. -/
def occupancy (d11 d12 d21 d22 : α) : α :=
  let b := occCase d11 d12 d21 d22
  if b = 0 then 0
  else if b = 1 then triangleOccupancy d21 d11 d12
  else if b = 2 then triangleOccupancy d11 d12 d22
  else if b = 4 then triangleOccupancy d12 d22 d21
  else if b = 8 then triangleOccupancy d22 d21 d11
  else if b = 14 then 1 - triangleOccupancy (-d21) (-d11) (-d12)
  else if b = 13 then 1 - triangleOccupancy (-d11) (-d12) (-d22)
  else if b = 11 then 1 - triangleOccupancy (-d12) (-d22) (-d21)
  else if b = 7 then 1 - triangleOccupancy (-d22) (-d21) (-d11)
  else if b = 3 then trapezoidOccupancy d21 d22 d11 d12
  else if b = 6 then trapezoidOccupancy d11 d21 d12 d22
  else if b = 9 then trapezoidOccupancy d12 d22 d11 d21
  else if b = 12 then trapezoidOccupancy d11 d12 d21 d22
  else if b = 5 then triangleOccupancy d11 d12 d22 + triangleOccupancy d22 d21 d11
  else if b = 10 then triangleOccupancy d21 d11 d12 + triangleOccupancy d12 d22 d21
  else if b = 15 then 1
  else 0

end Occupancy

/-- The abstract obstacle class `SolidBody` of Fluid.cpp.  The pose and
velocity members become record fields; the three pure virtual methods
(`distance`, `closestSurfacePoint`, `distanceNormal`) become function
fields, exactly as they are dispatched through the vtable in C++.
Concrete bodies (SolidBox, SolidSphere, or any other subclass) are
particular values of this record type. -/
structure SolidBody (α : Type) where
  posX : α
  posY : α
  scaleX : α
  scaleY : α
  theta : α
  velX : α
  velY : α
  velTheta : α
  distance : α → α → α
  closestSurfacePoint : α → α → α × α
  distanceNormal : α → α → α × α

instance {α : Type} [LinearOrderedField α] : Inhabited (SolidBody α) :=
  ⟨{ posX := 0, posY := 0, scaleX := 1, scaleY := 1, theta := 0,
     velX := 0, velY := 0, velTheta := 0,
     distance := fun _ _ => 1,
     closestSurfacePoint := fun x y => (x, y),
     distanceNormal := fun _ _ => (1, 0) }⟩

/-- `SolidBody::velocityX(x, y)` of Fluid.cpp: `(_posY - y)*_velTheta + _velX`. -/
def SolidBody.velocityX {α : Type} [LinearOrderedField α] (b : SolidBody α) (x y : α) : α :=
  (b.posY - y) * b.velTheta + b.velX

/-- `SolidBody::velocityY(x, y)` of Fluid.cpp: `(x - _posX)*_velTheta + _velY`. -/
def SolidBody.velocityY {α : Type} [LinearOrderedField α] (b : SolidBody α) (x y : α) : α :=
  (x - b.posX) * b.velTheta + b.velY

/-- The `FluidQuantity` class of Fluid.cpp: one staggered scalar field of
size `w*h` with offset `(ox, oy)` and cell size `hx`, together with the
auxiliary per-sample buffers (`_old`, `_phi`, `_volume`, `_normalX`,
`_normalY`, `_cell`, `_body`, `_mask`).  Flat buffers are total
functions on `ℤ`, indexed by `x + y*w` exactly as in the C code. -/
structure FluidQuantity (α : Type) where
  w : ℕ
  h : ℕ
  ox : α
  oy : α
  hx : α
  src : ℤ → α
  old : ℤ → α
  phi : ℤ → α
  volume : ℤ → α
  normalX : ℤ → α
  normalY : ℤ → α
  cell : ℤ → CellType
  body : ℤ → ℕ
  mask : ℤ → ℕ

namespace FluidQuantity

variable {α : Type} [LinearOrderedField α]

/-- The constructor of `FluidQuantity`: all cells FLUID, all volumes 1,
`src` zeroed.  The buffers the C++ constructor leaves uninitialized
(`_old`, `_phi`, normals, `_body`, `_mask`) are modelled as zero. -/
def mk0 (α : Type) [LinearOrderedField α] (w h : ℕ) (ox oy hx : α) : FluidQuantity α :=
  { w := w, h := h, ox := ox, oy := oy, hx := hx,
    src := fun _ => 0, old := fun _ => 0, phi := fun _ => 0,
    volume := fun _ => 1, normalX := fun _ => 0, normalY := fun _ => 0,
    cell := fun _ => CellType.FLUID, body := fun _ => 0, mask := fun _ => 0 }

/-- `FluidQuantity::idx(x, y)`: the flat index `x + y*_w`. -/
def idx (q : FluidQuantity α) (x y : ℤ) : ℤ :=
  x + y * (q.w : ℤ)

/-- `FluidQuantity::at(x, y)`: read `_src[x + y*_w]`. -/
def atG (q : FluidQuantity α) (x y : ℤ) : α :=
  q.src (x + y * (q.w : ℤ))

/-- `FluidQuantity::volume(x, y)`: read `_volume[x + y*_w]`. -/
def volumeAt (q : FluidQuantity α) (x y : ℤ) : α :=
  q.volume (x + y * (q.w : ℤ))

/-- Assignment `q.at(x, y) = v` into the `_src` buffer. -/
def setAt (q : FluidQuantity α) (x y : ℤ) (v : α) : FluidQuantity α :=
  { q with src := upd q.src (x + y * (q.w : ℤ)) v }

/-- `FluidQuantity::copy()`: `memcpy(_old, _src, w*h*sizeof(double))`,
written pointwise over the copied index range. -/
def copy (q : FluidQuantity α) : FluidQuantity α :=
  { q with old := fun j => if 0 ≤ j ∧ j < (q.w : ℤ) * (q.h : ℤ) then q.src j else q.old j }

/-- `FluidQuantity::diff(alpha)`: `src[i] -= (1 - alpha)*old[i]` for every
`i` in `[0, w*h)`; the iterations are independent, written pointwise. -/
def diff (q : FluidQuantity α) (alpha : α) : FluidQuantity α :=
  { q with src := fun j =>
      if 0 ≤ j ∧ j < (q.w : ℤ) * (q.h : ℤ) then q.src j - (1 - alpha) * q.old j else q.src j }

/-- `FluidQuantity::undiff(alpha)`: `src[i] += (1 - alpha)*old[i]` for
every `i` in `[0, w*h)`, pointwise. -/
def undiff (q : FluidQuantity α) (alpha : α) : FluidQuantity α :=
  { q with src := fun j =>
      if 0 ≤ j ∧ j < (q.w : ℤ) * (q.h : ℤ) then q.src j + (1 - alpha) * q.old j else q.src j }

/-- `FluidQuantity::lerp(x, y)` of Fluid.cpp: subtract the staggering
offset, clamp to `[0, dim - 1.001]`, split into integer cell `(ix, iy)`
(C int cast) and fraction, and bilinearly interpolate the four samples. -/
def lerp [FloorRing α] (q : FluidQuantity α) (x y : α) : α :=
  let x1 := min (max (x - q.ox) 0) ((q.w : α) - 1001/1000)
  let y1 := min (max (y - q.oy) 0) ((q.h : α) - 1001/1000)
  let ix := trunc x1
  let iy := trunc y1
  let fx := x1 - (ix : α)
  let fy := y1 - (iy : α)
  let x00 := q.atG (ix + 0) (iy + 0)
  let x10 := q.atG (ix + 1) (iy + 0)
  let x01 := q.atG (ix + 0) (iy + 1)
  let x11 := q.atG (ix + 1) (iy + 1)
  lerp1 (lerp1 x00 x10 fx) (lerp1 x01 x11 fx) fy

/-- `FluidQuantity::fillSolidFields(bodies)` of Fluid.cpp.  Empty body
list: early return.  Otherwise: corner loop writing `_phi` with the
minimum body distance at `((ix + ox - 0.5)*hx, (iy + oy - 0.5)*hx)`,
then the cell loop recording nearest body index, fractional volume
`1 - occupancy(...)` clamped to 0 below 0.01, the normal of the nearest
body, and the SOLID/FLUID classification.  Both loops have independent
iterations and are written pointwise, recovering the loop coordinates
from the flat index. -/
def fillSolidFields (q : FluidQuantity α) (bodies : List (SolidBody α)) : FluidQuantity α :=
  match bodies with
  | [] => q
  | b0 :: rest =>
    let phi2 : ℤ → α := fun j =>
      if 0 ≤ j ∧ j < ((q.w : ℤ) + 1) * ((q.h : ℤ) + 1) then
        let ix := j % ((q.w : ℤ) + 1)
        let iy := j / ((q.w : ℤ) + 1)
        let x := ((ix : α) + q.ox - 1/2) * q.hx
        let y := ((iy : α) + q.oy - 1/2) * q.hx
        rest.foldl (fun d b => min d (b.distance x y)) (b0.distance x y)
      else q.phi j
    let cellUpd : ℤ → ℕ × α × α × α × CellType := fun j =>
      let ix := j % (q.w : ℤ)
      let iy := j / (q.w : ℤ)
      let x := ((ix : α) + q.ox) * q.hx
      let y := ((iy : α) + q.oy) * q.hx
      let bd := rest.enum.foldl
        (fun (bd : ℕ × α) ib =>
          if ib.2.distance x y < bd.2 then (ib.1 + 1, ib.2.distance x y) else bd)
        (0, b0.distance x y)
      let idxp := ix + iy * ((q.w : ℤ) + 1)
      let vol0 := 1 - occupancy (phi2 idxp) (phi2 (idxp + 1))
        (phi2 (idxp + (q.w : ℤ) + 1)) (phi2 (idxp + (q.w : ℤ) + 2))
      let vol : α := if vol0 < 1/100 then 0 else vol0
      let nrm := (bodies.getD bd.1 default).distanceNormal x y
      (bd.1, vol, nrm.1, nrm.2, if vol = 0 then CellType.SOLID else CellType.FLUID)
    let inCell : ℤ → Prop := fun j => 0 ≤ j ∧ j < (q.w : ℤ) * (q.h : ℤ)
    { q with
      phi := phi2,
      body := fun j => if inCell j then (cellUpd j).1 else q.body j,
      volume := fun j => if inCell j then (cellUpd j).2.1 else q.volume j,
      normalX := fun j => if inCell j then (cellUpd j).2.2.1 else q.normalX j,
      normalY := fun j => if inCell j then (cellUpd j).2.2.2.1 else q.normalY j,
      cell := fun j => if inCell j then (cellUpd j).2.2.2.2 else q.cell j }

end FluidQuantity

/-- The three sparse-matrix coefficient arrays of `FluidSolver`
(`_aDiag`, `_aPlusX`, `_aPlusY`). -/
structure PressureMatrix (α : Type) where
  aDiag : ℤ → α
  aPlusX : ℤ → α
  aPlusY : ℤ → α

/-- `FluidSolver::buildPressureMatrix(timestep)` of Fluid.cpp.  The
coefficient arrays are zeroed, then for every FLUID cell with a FLUID
+x (resp. +y) neighbour a factor `scale*faceVolume/faceDensity` is added
to both diagonals and negated into `aPlusX` (resp. `aPlusY`).  Note the
transcribed source detail: the +y face density is read at
`vDensity[u.idx(x, y+1)]`, i.e. through the u-grid stride `w+1`, exactly
as in the C code. -/
def buildPressureMatrix {α : Type} [LinearOrderedField α] (w h : ℕ) (timestep hx : α)
    (cell : ℤ → CellType) (u v : FluidQuantity α)
    (uDensity vDensity : ℤ → α) : PressureMatrix α :=
  let scale := timestep / (hx * hx)
  (intRange 0 (h : ℤ)).foldl (fun m y =>
    (intRange 0 (w : ℤ)).foldl (fun m x =>
      let i := x + y * (w : ℤ)
      if cell i ≠ CellType.FLUID then m
      else
        let m1 :=
          if x < (w : ℤ) - 1 ∧ cell (i + 1) = CellType.FLUID then
            let factor := scale * u.volumeAt (x + 1) y / uDensity (u.idx (x + 1) y)
            { m with aDiag := bump (bump m.aDiag i factor) (i + 1) factor,
                     aPlusX := upd m.aPlusX i (-factor) }
          else m
        if y < (h : ℤ) - 1 ∧ cell (i + (w : ℤ)) = CellType.FLUID then
          let factor := scale * v.volumeAt x (y + 1) / vDensity (u.idx x (y + 1))
          { m1 with aDiag := bump (bump m1.aDiag i factor) (i + (w : ℤ)) factor,
                    aPlusY := upd m1.aPlusY i (-factor) }
        else m1) m)
    ⟨fun _ => 0, fun _ => 0, fun _ => 0⟩

/-- `FluidSolver::setBoundaryCondition()` of Fluid.cpp: for every SOLID
cell, the four incident face velocities are stamped from the owning
body (the source calls `velocityX` for all four faces, including the
two v-faces, and this is transcribed as is); afterwards the outer-ring
normal velocities are zeroed. -/
def setBoundaryCondition {α : Type} [LinearOrderedField α] (w h : ℕ) (hx : α)
    (cell : ℤ → CellType) (body : ℤ → ℕ) (bodies : List (SolidBody α))
    (u v : FluidQuantity α) : FluidQuantity α × FluidQuantity α :=
  let uv := (intRange 0 (h : ℤ)).foldl (fun uv y =>
    (intRange 0 (w : ℤ)).foldl (fun (uv : FluidQuantity α × FluidQuantity α) x =>
      let i := x + y * (w : ℤ)
      if cell i = CellType.SOLID then
        let b := bodies.getD (body i) default
        let u1 := uv.1.setAt x y (b.velocityX ((x : α) * hx) (((y : α) + 1/2) * hx))
        let v1 := uv.2.setAt x y (b.velocityX (((x : α) + 1/2) * hx) ((y : α) * hx))
        let u2 := u1.setAt (x + 1) y (b.velocityX (((x : α) + 1) * hx) (((y : α) + 1/2) * hx))
        let v2 := v1.setAt x (y + 1) (b.velocityX (((x : α) + 1/2) * hx) (((y : α) + 1) * hx))
        (u2, v2)
      else uv) uv) (u, v)
  let u3 := (intRange 0 (h : ℤ)).foldl
    (fun (uq : FluidQuantity α) y => (uq.setAt 0 y 0).setAt (w : ℤ) y 0) uv.1
  let v3 := (intRange 0 (w : ℤ)).foldl
    (fun (vq : FluidQuantity α) x => (vq.setAt x 0 0).setAt x (h : ℤ) 0) uv.2
  (u3, v3)

section Particles

variable {α : Type} [LinearOrderedField α] [FloorRing α]

/-- One step of the LCG in `frand()` of Fluid.cpp:
`seed = (seed*1103515245 + 12345) & 0x7FFFFFFF` (the 32-bit product
masked to 31 bits equals the product mod 2^31). -/
def frandStep (seed : ℕ) : ℕ :=
  (seed * 1103515245 + 12345) % 2 ^ 31

/-- The value returned by `frand()` for a given (already stepped) seed:
the bit trick `(seed >> 8) | 0x3F800000` builds the float `1.m` with
mantissa `seed >> 8`, and subtracting 1 yields `(seed >> 8) / 2^23`. -/
def frandVal (α : Type) [LinearOrderedField α] (seed : ℕ) : α :=
  ((seed / 2 ^ 8 : ℕ) : α) / 2 ^ 23

/-- `ParticleQuantities::pointInBody(x, y)`: true when some body has
negative signed distance at the world position `(x*hx, y*hx)`. -/
def pointInBody (bodies : List (SolidBody α)) (hx x y : α) : Bool :=
  bodies.any (fun b => if b.distance (x * hx) (y * hx) < 0 then true else false)

/-- The mutable particle-system state of `ParticleQuantities`: active
count, position arrays, one property array per registered quantity, and
the global LCG seed threaded through `frand()` calls. -/
structure ParticleState (α : Type) where
  particleCount : ℕ
  posX : ℕ → α
  posY : ℕ → α
  properties : List (ℕ → α)
  seed : ℕ

/-- `ParticleQuantities::seedParticles()` of Fluid.cpp: for every cell,
spawn `MinPerCell - counts[idx]` jittered particles; stop for good when
the pool is full; a candidate is rejected (`continue`) when
`pointInBody(_posX[idx], _posY[idx])` holds — note the transcribed
source detail that the rejection test reads the particle slot indexed
by the CELL index `idx`, not the new slot `j`; accepted particles
sample their properties from the grids and increment the count. -/
def seedParticles (w h : ℕ) (hx : α) (bodies : List (SolidBody α))
    (quantities : List (FluidQuantity α)) (counts : ℤ → ℤ) (maxParticles : ℕ)
    (st : ParticleState α) : ParticleState α :=
  let stepCell := fun (sd : ParticleState α × Bool) (idx : ℤ) =>
    (List.range (3 - counts idx).toNat).foldl
      (fun (sd : ParticleState α × Bool) _ =>
        if sd.2 then sd
        else if sd.1.particleCount = maxParticles then (sd.1, true)
        else
          let st := sd.1
          let x := idx % (w : ℤ)
          let y := idx / (w : ℤ)
          let j := st.particleCount
          let s1 := frandStep st.seed
          let px := (x : α) + frandVal α s1
          let s2 := frandStep s1
          let py := (y : α) + frandVal α s2
          let posX1 := fun k => if k = j then px else st.posX k
          let posY1 := fun k => if k = j then py else st.posY k
          if pointInBody bodies hx (posX1 idx.toNat) (posY1 idx.toNat) then
            ({ st with posX := posX1, posY := posY1, seed := s2 }, false)
          else
            ({ st with
                posX := posX1, posY := posY1, seed := s2,
                properties := quantities.zipWith
                  (fun q p => fun k => if k = j then q.lerp px py else p k)
                  st.properties,
                particleCount := j + 1 }, false)) sd
  ((intRange 0 ((w : ℤ) * (h : ℤ))).foldl stepCell (st, false)).1

/-- `ParticleQuantities::initParticles()` of Fluid.cpp: `AvgPerCell = 4`
jittered particles per cell; a candidate inside a body is discarded by
re-using its slot (`idx--`).  Returns positions and the final active
count, threading the LCG seed. -/
def initParticles (w h : ℕ) (hx : α) (bodies : List (SolidBody α)) (seed0 : ℕ) :
    ParticleState α :=
  (intRange 0 ((w : ℤ) * (h : ℤ))).foldl
    (fun (st : ParticleState α) cIdx =>
      let x := cIdx % (w : ℤ)
      let y := cIdx / (w : ℤ)
      (List.range 4).foldl
        (fun (st : ParticleState α) _ =>
          let s1 := frandStep st.seed
          let px := (x : α) + frandVal α s1
          let s2 := frandStep s1
          let py := (y : α) + frandVal α s2
          let posX1 := fun k => if k = st.particleCount then px else st.posX k
          let posY1 := fun k => if k = st.particleCount then py else st.posY k
          if pointInBody bodies hx px py then
            { st with posX := posX1, posY := posY1, seed := s2 }
          else
            { st with posX := posX1, posY := posY1, seed := s2,
                      particleCount := st.particleCount + 1 }) st)
    { particleCount := 0, posX := fun _ => 0, posY := fun _ => 0,
      properties := [], seed := seed0 }

/-- `ParticleQuantities::gridToParticles(alpha)` of Fluid.cpp: for every
registered quantity `t` and every active particle `i`,
`prop[t][i] = (1 - alpha)*prop[t][i] + q_t.lerp(posX[i], posY[i])`.
The iterations are independent and written pointwise. -/
def gridToParticles (alpha : α) (quantities : List (FluidQuantity α)) (count : ℕ)
    (posX posY : ℕ → α) (props : ℕ → ℕ → α) : ℕ → ℕ → α :=
  fun t i =>
    if t < quantities.length ∧ i < count then
      (1 - alpha) * props t i + (quantities.getD t (FluidQuantity.mk0 α 0 0 0 0 0)).lerp (posX i) (posY i)
    else props t i

/-- `ParticleQuantities::rungeKutta3(x, y, timestep, u, v)` of Fluid.cpp,
forward in time.  As in the source, the first two velocity samples are
divided by `hx` and the last one is not. -/
def rungeKutta3 (hx timestep : α) (u v : FluidQuantity α) (x y : α) : α × α :=
  let firstU := u.lerp x y / hx
  let firstV := v.lerp x y / hx
  let midX := x + (1/2) * timestep * firstU
  let midY := y + (1/2) * timestep * firstV
  let midU := u.lerp midX midY / hx
  let midV := v.lerp midX midY / hx
  let lastX := x + (3/4) * timestep * midU
  let lastY := y + (3/4) * timestep * midV
  let lastU := u.lerp lastX lastY
  let lastV := v.lerp lastX lastY
  (x + timestep * ((2/9) * firstU + (3/9) * midU + (4/9) * lastU),
   y + timestep * ((2/9) * firstV + (3/9) * midV + (4/9) * lastV))

/-- `ParticleQuantities::backProject(x, y)` of Fluid.cpp: scan all bodies
for the minimum signed distance at the world position (starting from
1e30); only when that minimum is below `-1.0` is the particle moved to
the closest surface point and pushed one cell outward along the body
normal. -/
def backProject (bodies : List (SolidBody α)) (hx x y : α) : α × α :=
  let dc := bodies.enum.foldl
    (fun (dc : α × ℕ) ib =>
      if ib.2.distance (x * hx) (y * hx) < dc.1
      then (ib.2.distance (x * hx) (y * hx), ib.1) else dc)
    ((10 : α) ^ 30, 0)
  if dc.1 < -1 then
    let wx := x * hx
    let wy := y * hx
    let b := bodies.getD dc.2 default
    let p := b.closestSurfacePoint wx wy
    let n := b.distanceNormal p.1 p.2
    ((p.1 - n.1 * hx) / hx, (p.2 - n.2 * hx) / hx)
  else (x, y)

/-- `ParticleQuantities::advect(timestep, u, v)` of Fluid.cpp: every
active particle is advanced by RK3 through the velocity fields, pushed
out of deep solid penetration by `backProject`, and clamped to
`[0, w - 0.001] x [0, h - 0.001]`. -/
def advect (w h : ℕ) (hx timestep : α) (u v : FluidQuantity α)
    (bodies : List (SolidBody α)) (ps : List (α × α)) : List (α × α) :=
  ps.map (fun p =>
    let p1 := rungeKutta3 hx timestep u v p.1 p.2
    let p2 := backProject bodies hx p1.1 p1.2
    (max (min p2.1 ((w : α) - 1/1000)) 0, max (min p2.2 ((h : α) - 1/1000)) 0))

end Particles

section Transfer

variable {α : Type} [LinearOrderedField α] [FloorRing α]

/-- `FluidQuantity::addSample(weight, value, x, y, ix, iy)` of Fluid.cpp:
out-of-range targets are skipped; otherwise the hat-filter coefficient
`k = (1 - |ix - x|)*(1 - |iy - y|)` is accumulated into the weight and
`k*value` into the source buffer.  The state is the pair
(weight, src). -/
def addSample (w h : ℕ) (ws : (ℤ → α) × (ℤ → α)) (value x y : α) (ix iy : ℤ) :
    (ℤ → α) × (ℤ → α) :=
  if ix < 0 ∨ iy < 0 ∨ (w : ℤ) ≤ ix ∨ (h : ℤ) ≤ iy then ws
  else
    let k := (1 - |(ix : α) - x|) * (1 - |(iy : α) - y|)
    (bump ws.1 (ix + iy * (w : ℤ)) k, bump ws.2 (ix + iy * (w : ℤ)) (k * value))

/-- The accumulation pass of `FluidQuantity::fromParticles`: starting
from the zeroed (weight, src) pair, deposit every particle into its
four closest cells through `addSample`. -/
def fromParticlesAccum (w h : ℕ) (ox oy : α) (count : ℕ) (posX posY property : ℕ → α) :
    (ℤ → α) × (ℤ → α) :=
  (List.range count).foldl
    (fun ws i =>
      let x := max (1/2) (min ((w : α) - 3/2) (posX i - ox))
      let y := max (1/2) (min ((h : α) - 3/2) (posY i - oy))
      let ix := trunc x
      let iy := trunc y
      let ws1 := addSample w h ws (property i) x y (ix + 0) (iy + 0)
      let ws2 := addSample w h ws1 (property i) x y (ix + 1) (iy + 0)
      let ws3 := addSample w h ws2 (property i) x y (ix + 0) (iy + 1)
      addSample w h ws3 (property i) x y (ix + 1) (iy + 1))
    (fun _ => (0 : α), fun _ => (0 : α))

/-- `FluidQuantity::fromParticles(weight, count, posX, posY, property)`
of Fluid.cpp: zero `src` and `weight`, deposit every particle into its
four closest cells through `addSample`, then normalize each cell by its
weight, marking weightless FLUID cells EMPTY.  The final normalization
loop has independent iterations and is written pointwise. -/
def FluidQuantity.fromParticles (q : FluidQuantity α) (count : ℕ)
    (posX posY property : ℕ → α) : FluidQuantity α :=
  let ws := fromParticlesAccum q.w q.h q.ox q.oy count posX posY property
  { q with
    src := fun j =>
      if 0 ≤ j ∧ j < (q.w : ℤ) * (q.h : ℤ) then
        (if ws.1 j ≠ 0 then ws.2 j / ws.1 j else ws.2 j)
      else ws.2 j,
    cell := fun j =>
      if (0 ≤ j ∧ j < (q.w : ℤ) * (q.h : ℤ)) ∧ ws.1 j = 0 ∧ q.cell j = CellType.FLUID
      then CellType.EMPTY else q.cell j }

/-- `FluidQuantity::fillSolidMask()` of Fluid.cpp: the outermost ring is
frozen at 0xFF; interior SOLID cells get bit 1 (resp. 2) when the
neighbour along the normal x (resp. y) direction is not FLUID; interior
EMPTY cells get mask 1 exactly when no 4-neighbour is FLUID; all other
interior cells get 0.  All writes are to distinct indices, written
pointwise by recovering the loop coordinates from the flat index. -/
def FluidQuantity.fillSolidMask (q : FluidQuantity α) : FluidQuantity α :=
  { q with mask := fun j =>
      if 0 ≤ j ∧ j < (q.w : ℤ) * (q.h : ℤ) then
        let x := j % (q.w : ℤ)
        let y := j / (q.w : ℤ)
        if x = 0 ∨ x = (q.w : ℤ) - 1 ∨ y = 0 ∨ y = (q.h : ℤ) - 1 then 255
        else if q.cell j = CellType.SOLID then
          (if q.normalX j ≠ 0 ∧ q.cell (j + sgn (q.normalX j)) ≠ CellType.FLUID then 1 else 0) +
          (if q.normalY j ≠ 0 ∧ q.cell (j + sgn (q.normalY j) * (q.w : ℤ)) ≠ CellType.FLUID then 2 else 0)
        else if q.cell j = CellType.EMPTY then
          (if q.cell (j - 1) ≠ CellType.FLUID ∧ q.cell (j + 1) ≠ CellType.FLUID ∧
              q.cell (j - (q.w : ℤ)) ≠ CellType.FLUID ∧ q.cell (j + (q.w : ℤ)) ≠ CellType.FLUID
           then 1 else 0)
        else 0
      else q.mask j }

/-- `FluidQuantity::extrapolateNormal(idx)` of Fluid.cpp. -/
def FluidQuantity.extrapolateNormal (q : FluidQuantity α) (j : ℤ) : α :=
  let nx := q.normalX j
  let ny := q.normalY j
  (|nx| * q.src (j + sgn nx) + |ny| * q.src (j + sgn ny * (q.w : ℤ))) / (|nx| + |ny|)

/-- `FluidQuantity::extrapolateAverage(idx)` of Fluid.cpp: sum and count
the FLUID 4-neighbours and divide (the zero-count division cannot occur
in a run of the program; the total model returns 0 there). -/
def FluidQuantity.extrapolateAverage (q : FluidQuantity α) (j : ℤ) : α :=
  let a0 : α × α := (0, 0)
  let a1 := if q.cell (j - 1) = CellType.FLUID then (a0.1 + q.src (j - 1), a0.2 + 1) else a0
  let a2 := if q.cell (j + 1) = CellType.FLUID then (a1.1 + q.src (j + 1), a1.2 + 1) else a1
  let a3 := if q.cell (j - (q.w : ℤ)) = CellType.FLUID then (a2.1 + q.src (j - (q.w : ℤ)), a2.2 + 1) else a2
  let a4 := if q.cell (j + (q.w : ℤ)) = CellType.FLUID then (a3.1 + q.src (j + (q.w : ℤ)), a3.2 + 1) else a3
  a4.1 / a4.2

/-- `FluidQuantity::freeSolidNeighbour(idx, border, mask)` of Fluid.cpp:
clear the given mask bit of a SOLID cell and push it when its mask
reaches zero.  The state is the quantity paired with the LIFO stack. -/
def FluidQuantity.freeSolidNeighbour (s : FluidQuantity α × List ℤ) (j : ℤ) (bit : ℕ) :
    FluidQuantity α × List ℤ :=
  if s.1.cell j = CellType.SOLID then
    let m := s.1.mask j &&& (255 - bit)
    ({ s.1 with mask := upd s.1.mask j m }, if m = 0 then j :: s.2 else s.2)
  else s

/-- `FluidQuantity::freeEmptyNeighbour(idx, border)` of Fluid.cpp. -/
def FluidQuantity.freeEmptyNeighbour (s : FluidQuantity α × List ℤ) (j : ℤ) :
    FluidQuantity α × List ℤ :=
  if s.1.cell j = CellType.EMPTY then
    (if s.1.mask j = 1 then ({ s.1 with mask := upd s.1.mask j 0 }, j :: s.2) else s)
  else s

/-- The body of the while-loop of `FluidQuantity::extrapolate()`: pop one
index, write its extrapolated value (averaging and reclassifying EMPTY
cells, normal-extrapolating SOLID cells), then notify the four
neighbours in source order. -/
def FluidQuantity.extrapolateStep (q : FluidQuantity α) (j : ℤ) (rest : List ℤ) :
    FluidQuantity α × List ℤ :=
  let wI := (q.w : ℤ)
  let q1 :=
    if q.cell j = CellType.EMPTY then
      { q with src := upd q.src j (q.extrapolateAverage j),
               cell := fun k => if k = j then CellType.FLUID else q.cell k }
    else
      { q with src := upd q.src j (q.extrapolateNormal j) }
  let s0 := (q1, rest)
  let s1 := if 0 < q1.normalX (j - 1) then FluidQuantity.freeSolidNeighbour s0 (j - 1) 1 else s0
  let s2 := if s1.1.normalX (j + 1) < 0 then FluidQuantity.freeSolidNeighbour s1 (j + 1) 1 else s1
  let s3 := if 0 < s2.1.normalY (j - wI) then FluidQuantity.freeSolidNeighbour s2 (j - wI) 2 else s2
  let s4 := if s3.1.normalY (j + wI) < 0 then FluidQuantity.freeSolidNeighbour s3 (j + wI) 2 else s3
  let s5 := FluidQuantity.freeEmptyNeighbour s4 (j - 1)
  let s6 := FluidQuantity.freeEmptyNeighbour s5 (j + 1)
  let s7 := FluidQuantity.freeEmptyNeighbour s6 (j - wI)
  FluidQuantity.freeEmptyNeighbour s7 (j + wI)

/-- The while-loop of `FluidQuantity::extrapolate()`, with an explicit
fuel bound.  The C loop runs until the stack drains; every property
proved below is an invariant of `extrapolateStep` and therefore holds
for every fuel value. -/
def FluidQuantity.extrapolateLoop : ℕ → FluidQuantity α × List ℤ → FluidQuantity α
  | 0, s => s.1
  | fuel + 1, s =>
    match s.2 with
    | [] => s.1
    | j :: rest => FluidQuantity.extrapolateLoop fuel (FluidQuantity.extrapolateStep s.1 j rest)

/-- The seeding loop of `FluidQuantity::extrapolate()`: push every
interior non-FLUID cell whose mask is zero, in source iteration
order. -/
def FluidQuantity.extrapolateBorder (q : FluidQuantity α) : List ℤ :=
  (intRange 1 ((q.h : ℤ) - 1)).foldl (fun st y =>
    (intRange 1 ((q.w : ℤ) - 1)).foldl (fun st x =>
      let j := x + y * (q.w : ℤ)
      if q.cell j ≠ CellType.FLUID ∧ q.mask j = 0 then j :: st else st) st) []

/-- One iteration of the first border loop of
`FluidQuantity::extrapolateEmptyBorders()`: EMPTY cells of the top and
bottom rows at column `x` copy from the adjacent inward cell. -/
def ebStepTB (wI hI : ℤ) (s : FluidQuantity α) (x : ℤ) : FluidQuantity α :=
  let idxT := x
  let idxB := x + (hI - 1) * wI
  let sa := if s.cell idxT = CellType.EMPTY then
      { s with src := upd s.src idxT (s.src (idxT + wI)) } else s
  if sa.cell idxB = CellType.EMPTY then
    { sa with src := upd sa.src idxB (sa.src (idxB - wI)) } else sa

/-- One iteration of the second border loop of
`FluidQuantity::extrapolateEmptyBorders()`: EMPTY cells of the left and
right columns at row `y` copy from the adjacent inward cell. -/
def ebStepLR (wI : ℤ) (s : FluidQuantity α) (y : ℤ) : FluidQuantity α :=
  let idxL := y * wI
  let idxR := y * wI + wI - 1
  let sa := if s.cell idxL = CellType.EMPTY then
      { s with src := upd s.src idxL (s.src (idxL + 1)) } else s
  if sa.cell idxR = CellType.EMPTY then
    { sa with src := upd sa.src idxR (sa.src (idxR - 1)) } else sa

/-- One corner fixup of `FluidQuantity::extrapolateEmptyBorders()`: an
EMPTY corner cell `i` averages its two inward neighbours `a` and `b`. -/
def ebCorner (s : FluidQuantity α) (i a b : ℤ) : FluidQuantity α :=
  if s.cell i = CellType.EMPTY then
    { s with src := upd s.src i ((1/2) * (s.src a + s.src b)) } else s

/-- The four corner fixups of `FluidQuantity::extrapolateEmptyBorders()`
in source order: top-left, top-right, bottom-left, bottom-right. -/
def ebCorners (wI hI : ℤ) (q2 : FluidQuantity α) : FluidQuantity α :=
  let q3 := ebCorner q2 0 (0 + 1) (0 + wI)
  let q4 := ebCorner q3 (wI - 1) (wI - 1 - 1) (wI - 1 + wI)
  let q5 := ebCorner q4 ((hI - 1) * wI) ((hI - 1) * wI + 1) ((hI - 1) * wI - wI)
  ebCorner q5 (hI * wI - 1) (hI * wI - 1 - 1) (hI * wI - 1 - wI)

/-- The closing loop of `FluidQuantity::extrapolateEmptyBorders()`:
every remaining in-range EMPTY cell is reclassified FLUID (pointwise,
the iterations are independent). -/
def ebFinalize (wI hI : ℤ) (q6 : FluidQuantity α) : FluidQuantity α :=
  { q6 with cell := fun j =>
      if 0 ≤ j ∧ j < wI * hI ∧ q6.cell j = CellType.EMPTY then CellType.FLUID else q6.cell j }

/-- `FluidQuantity::extrapolateEmptyBorders()` of Fluid.cpp: EMPTY
border cells copy from the adjacent inward cell, EMPTY corner cells
average their two inward neighbours, and finally every remaining EMPTY
cell is reclassified FLUID. -/
def FluidQuantity.extrapolateEmptyBorders (q0 : FluidQuantity α) : FluidQuantity α :=
  let wI := (q0.w : ℤ)
  let hI := (q0.h : ℤ)
  ebFinalize wI hI
    (ebCorners wI hI
      ((intRange 1 (hI - 1)).foldl (ebStepLR wI)
        ((intRange 1 (wI - 1)).foldl (ebStepTB wI hI) q0)))

/-- `FluidQuantity::extrapolate()` of Fluid.cpp: build the masks, seed
the LIFO, drain it, then fix the borders. -/
def FluidQuantity.extrapolate (q : FluidQuantity α) : FluidQuantity α :=
  let q1 := q.fillSolidMask
  FluidQuantity.extrapolateEmptyBorders
    (FluidQuantity.extrapolateLoop ((q.w * q.h + 1) * (q.w * q.h + 1))
      (q1, q1.extrapolateBorder))

/-- The invariant of the at-rest density pipeline: a quantity with the
given grid geometry whose source buffer is identically zero, whose cells
are all FLUID or EMPTY, and whose out-of-range cells are FLUID. -/
def restState (w0 h0 : ℕ) (ox0 oy0 hx0 : α) (q : FluidQuantity α) : Prop :=
  q.w = w0 ∧ q.h = h0 ∧ q.ox = ox0 ∧ q.oy = oy0 ∧ q.hx = hx0 ∧
  (∀ j, q.src j = 0) ∧
  (∀ j, q.cell j = CellType.FLUID ∨ q.cell j = CellType.EMPTY) ∧
  (∀ j, ¬(0 ≤ j ∧ j < (w0 : ℤ) * (h0 : ℤ)) → q.cell j = CellType.FLUID)

end Transfer

/-- The helper `length(x, y)` of Fluid.cpp. -/
noncomputable def length (x y : ℝ) : ℝ := Real.sqrt (x * x + y * y)

/-- The smooth brush profile `cubicPulse(x)` of Fluid.cpp:
`x = min(|x|, 1); 1 - x*x*(3 - 2*x)`. -/
noncomputable def cubicPulse (x : ℝ) : ℝ :=
  let x1 := min |x| 1
  1 - x1 * x1 * (3 - 2 * x1)

/-- The src-buffer transformation of `FluidQuantity::addInflow` of
Fluid.cpp.  The rectangle corners are converted to cell indices with the
C int cast; the loops run over `y` in `[max(iy0,0), min(iy1,h))` and `x`
in `[max(ix0,0), min(ix1,h))` — the upper x bound clips against `_h`
exactly as the source does; each visited sample is overwritten with the
pulse-weighted value when that is larger in magnitude. -/
noncomputable def addInflowSrc (w h : ℕ) (ox oy hx : ℝ) (x0 y0 x1 y1 v : ℝ)
    (src : ℤ → ℝ) : ℤ → ℝ :=
  let ix0 := trunc (x0 / hx - ox)
  let iy0 := trunc (y0 / hx - oy)
  let ix1 := trunc (x1 / hx - ox)
  let iy1 := trunc (y1 / hx - oy)
  (intRange (max iy0 0) (min iy1 (h : ℤ))).foldl (fun (s : ℤ → ℝ) (y : ℤ) =>
    (intRange (max ix0 0) (min ix1 (h : ℤ))).foldl (fun (s : ℤ → ℝ) (x : ℤ) =>
      let l := length ((2 * ((x : ℝ) + 1/2) * hx - (x0 + x1)) / (x1 - x0))
                      ((2 * ((y : ℝ) + 1/2) * hx - (y0 + y1)) / (y1 - y0))
      let vi := cubicPulse l * v
      let i := x + y * (w : ℤ)
      fun (j : ℤ) => if j = i then (if |s i| < |vi| then vi else s i) else s j) s) src

/-- `FluidQuantity::addInflow(x0, y0, x1, y1, v)` of Fluid.cpp. -/
noncomputable def FluidQuantity.addInflow (q : FluidQuantity ℝ) (x0 y0 x1 y1 v : ℝ) :
    FluidQuantity ℝ :=
  { q with src := addInflowSrc q.w q.h q.ox q.oy q.hx x0 y0 x1 y1 v q.src }

/-- The sequence of operations `FluidSolver::update(timestep)` of
Fluid.cpp applies to the density quantity `_d`, in source order:
`fillSolidFields`, the particle-to-grid transfer with extrapolation
(from `particlesToGrid`), `copy`, the built-in inflow call
`addInflow(0.45, 0.2, 0.2, 0.05, 1.0, _tAmb, 0.0, 0.0)` which stamps
`_d` on the rectangle (0.45, 0.2)-(0.65, 0.25) with value 1.0, the
later `_d->extrapolate()`, and `diff`/`undiff` with
`_flipAlpha = 0.001`.  No other statement of `update` writes to `_d`
(the heat solve, buoyancy, pressure solve and boundary stamping write
only `_t`, `_u`, `_v` and solver workspace). -/
noncomputable def updateDensity (bodies : List (SolidBody ℝ)) (count : ℕ)
    (posX posY propD : ℕ → ℝ) (q : FluidQuantity ℝ) : FluidQuantity ℝ :=
  let q1 := q.fillSolidFields bodies
  let q2 := (q1.fromParticles count posX posY propD).extrapolate
  let q3 := q2.copy
  let q4 := q3.addInflow (45/100) (2/10) (65/100) (25/100) 1
  let q5 := q4.extrapolate
  (q5.diff (1/1000)).undiff (1/1000)

/-- A concrete half-space obstacle over `ℚ` implementing the
`SolidBody` interface: solid where `x < 1/4`, exact signed distance
`x - 1/4`, closest surface point by horizontal projection, outward
normal `(1, 0)`. -/
def bodyW : SolidBody ℚ :=
  { posX := 1/4, posY := 0, scaleX := 1, scaleY := 1, theta := 0,
    velX := 0, velY := 0, velTheta := 0,
    distance := fun x _ => x - 1/4,
    closestSurfacePoint := fun _ y => (1/4, y),
    distanceNormal := fun _ _ => (1, 0) }

/-- A half-space obstacle (solid where `x < 1/4`) translating upward
with rigid velocity (0, 1) and no rotation. -/
def bodyC3 : SolidBody ℚ :=
  { bodyW with velY := 1 }

/-- A half-space obstacle solid where the world coordinate `x < 1`, at
rest. -/
def bodyC4 : SolidBody ℚ :=
  { bodyW with
      posX := 1
      distance := fun x _ => x - 1
      closestSurfacePoint := fun _ y => (1, y) }

/-- A half-space obstacle solid where the world coordinate `x < 2`, at
rest. -/
def bodyC7 : SolidBody ℚ :=
  { bodyW with
      posX := 2
      distance := fun x _ => x - 2
      closestSurfacePoint := fun _ y => (2, y) }

/-- A concrete particle-system state over `ℚ`: one active particle in
slot 0 at grid position (5, 5), no registered quantities, LCG seed 1. -/
def stC7 : ParticleState ℚ :=
  { particleCount := 1,
    posX := fun i => if i = 0 then 5 else 0,
    posY := fun i => if i = 0 then 5 else 0,
    properties := [],
    seed := 1 }

/-! ### Claim C5: occupancy complement symmetry -/

/-- C5, counterexample: at the diagonal saddle quartet
`(d11, d12, d21, d22) = (-1, 1, 1, -1)` the sum
`OCC(d) + OCC(-d)` computed by `occupancy` is `1/4 + 1/4 = 1/2`, not 1,
so the claimed identity fails exactly on the saddle configurations it
claims to include. -/
theorem c5_counterexample :
    occupancy (-1 : ℚ) 1 1 (-1) + occupancy 1 (-1) (-1) 1 ≠ 1 := by
  norm_num [occupancy, occCase, triangleOccupancy]

theorem trapezoid_complement {α : Type} [LinearOrderedField α] {o1 o2 i1 i2 : α}
    (h1 : o1 - i1 ≠ 0) (h2 : o2 - i2 ≠ 0) :
    trapezoidOccupancy o1 o2 i1 i2 + trapezoidOccupancy (-i1) (-i2) (-o1) (-o2) = 1 := by
  unfold trapezoidOccupancy
  rw [show (-i1 - -o1 : α) = o1 - i1 from by ring, show (-i2 - -o2 : α) = o2 - i2 from by ring]
  field_simp
  ring

/-- C5, amended: for every quartet of nonzero corner distances whose
sign pattern is not a diagonal saddle (not exactly two opposite corners
negative), `occupancy d + occupancy (-d) = 1` holds exactly over any
linear ordered field, in particular over the reals. -/
theorem c5_occupancy_complement {α : Type} [LinearOrderedField α] (d11 d12 d21 d22 : α)
    (h11 : d11 ≠ 0) (h12 : d12 ≠ 0) (h21 : d21 ≠ 0) (h22 : d22 ≠ 0)
    (hsaddle : ¬((d11 < 0 ∧ d22 < 0 ∧ 0 < d12 ∧ 0 < d21) ∨
                 (d12 < 0 ∧ d21 < 0 ∧ 0 < d11 ∧ 0 < d22))) :
    occupancy d11 d12 d21 d22 + occupancy (-d11) (-d12) (-d21) (-d22) = 1 := by
  rcases h11.lt_or_lt with p11 | p11 <;> rcases h12.lt_or_lt with p12 | p12 <;>
    rcases h21.lt_or_lt with p21 | p21 <;> rcases h22.lt_or_lt with p22 | p22 <;>
  first
    | (simp only [occupancy, occCase, neg_lt_zero, neg_neg,
         p11, p12, p21, p22, p11.asymm, p12.asymm, p21.asymm, p22.asymm,
         if_true, if_false, iff_true, iff_false, Nat.reduceAdd, Nat.reduceEqDiff]
       first
         | ring1
         | (refine trapezoid_complement ?_ ?_ <;> exact ne_of_gt (by linarith)))
    | (exfalso; exact hsaddle (Or.inl (And.intro p11 (And.intro p22 (And.intro p12 p21)))))
    | (exfalso; exact hsaddle (Or.inr (And.intro p12 (And.intro p21 (And.intro p11 p22)))))

/-- C5, witness for the amended theorem: a concrete non-saddle quartet
with all corners nonzero on which the complement identity evaluates to
1. -/
theorem c5_witness :
    occupancy (1 : ℚ) 1 1 (-1) + occupancy (-1) (-1) (-1) 1 = 1 :=
  c5_occupancy_complement 1 1 1 (-1) (by norm_num) (by norm_num) (by norm_num)
    (by norm_num) (by norm_num)

/-! ### Claim C9: fractional volumes lie in {0} ∪ [0.01, 1] -/

theorem triangleOccupancy_neg {α : Type} [LinearOrderedField α] (a b c : α) :
    triangleOccupancy (-a) (-b) (-c) = triangleOccupancy a b c := by
  unfold triangleOccupancy
  rw [show ((-a) - (-b)) * ((-c) - (-b)) = (a - b) * (c - b) from by ring]
  ring

theorem triangle_bounds_neg {α : Type} [LinearOrderedField α] {o1 i1 o2 : α}
    (hi : i1 ≤ 0) (h1 : 0 ≤ o1) (h2 : 0 ≤ o2) :
    0 ≤ triangleOccupancy o1 i1 o2 ∧ triangleOccupancy o1 i1 o2 ≤ 1/2 := by
  unfold triangleOccupancy
  rcases eq_or_lt_of_le hi with he | hlt
  · rw [he]
    norm_num
  · have f1 : -i1 ≤ o1 - i1 := by linarith
    have f2 : -i1 ≤ o2 - i1 := by linarith
    have hsq : (-i1) * (-i1) ≤ (o1 - i1) * (o2 - i1) :=
      mul_le_mul f1 f2 (by linarith) (by linarith)
    have hpos : 0 < (o1 - i1) * (o2 - i1) := by nlinarith
    constructor
    · apply div_nonneg _ hpos.le
      nlinarith
    · rw [div_le_iff₀ hpos]
      nlinarith

theorem triangle_bounds_pos {α : Type} [LinearOrderedField α] {o1 i1 o2 : α}
    (hi : 0 ≤ i1) (h1 : o1 ≤ 0) (h2 : o2 ≤ 0) :
    0 ≤ triangleOccupancy o1 i1 o2 ∧ triangleOccupancy o1 i1 o2 ≤ 1/2 := by
  have h := @triangle_bounds_neg α _ (-o1) (-i1) (-o2)
    (by linarith) (by linarith) (by linarith)
  rwa [triangleOccupancy_neg] at h

theorem trapezoid_bounds {α : Type} [LinearOrderedField α] {o1 o2 i1 i2 : α}
    (hi1 : i1 < 0) (hi2 : i2 < 0) (h1 : 0 ≤ o1) (h2 : 0 ≤ o2) :
    0 ≤ trapezoidOccupancy o1 o2 i1 i2 ∧ trapezoidOccupancy o1 o2 i1 i2 ≤ 1 := by
  have d1 : 0 < o1 - i1 := by linarith
  have d2 : 0 < o2 - i2 := by linarith
  have t1a : 0 ≤ -i1 / (o1 - i1) := div_nonneg (by linarith) d1.le
  have t1b : -i1 / (o1 - i1) ≤ 1 := (div_le_one d1).2 (by linarith)
  have t2a : 0 ≤ -i2 / (o2 - i2) := div_nonneg (by linarith) d2.le
  have t2b : -i2 / (o2 - i2) ≤ 1 := (div_le_one d2).2 (by linarith)
  have hr : trapezoidOccupancy o1 o2 i1 i2
      = (1/2) * (-i1 / (o1 - i1) + -i2 / (o2 - i2)) := by
    unfold trapezoidOccupancy
    ring
  rw [hr]
  constructor <;> linarith

/-- The 16-case occupancy value always lies in [0, 1], for every real
quartet of corner distances. -/
theorem occupancy_bounds {α : Type} [LinearOrderedField α] (d11 d12 d21 d22 : α) :
    0 ≤ occupancy d11 d12 d21 d22 ∧ occupancy d11 d12 d21 d22 ≤ 1 := by
  rcases lt_or_le d11 0 with p11 | p11 <;> rcases lt_or_le d12 0 with p12 | p12 <;>
    rcases lt_or_le d21 0 with p21 | p21 <;> rcases lt_or_le d22 0 with p22 | p22 <;>
  · simp only [occupancy, occCase,
      p11, p12, p21, p22, p11.not_lt, p12.not_lt, p21.not_lt, p22.not_lt,
      if_true, if_false, iff_true, iff_false, Nat.reduceAdd, Nat.reduceEqDiff]
    first
      | (constructor <;> norm_num <;> done)
      | (obtain ⟨ha, hb⟩ := triangle_bounds_neg p11.le p21 p12;
         refine And.intro ?_ ?_ <;> linarith)
      | (obtain ⟨ha, hb⟩ := triangle_bounds_neg p12.le p11 p22;
         refine And.intro ?_ ?_ <;> linarith)
      | (obtain ⟨ha, hb⟩ := triangle_bounds_neg p22.le p12 p21;
         refine And.intro ?_ ?_ <;> linarith)
      | (obtain ⟨ha, hb⟩ := triangle_bounds_neg p21.le p22 p11;
         refine And.intro ?_ ?_ <;> linarith)
      | (obtain ⟨ha, hb⟩ := triangle_bounds_neg (neg_nonpos.mpr p11) (neg_nonneg.mpr p21.le)
           (neg_nonneg.mpr p12.le); refine And.intro ?_ ?_ <;> linarith)
      | (obtain ⟨ha, hb⟩ := triangle_bounds_neg (neg_nonpos.mpr p12) (neg_nonneg.mpr p11.le)
           (neg_nonneg.mpr p22.le); refine And.intro ?_ ?_ <;> linarith)
      | (obtain ⟨ha, hb⟩ := triangle_bounds_neg (neg_nonpos.mpr p22) (neg_nonneg.mpr p12.le)
           (neg_nonneg.mpr p21.le); refine And.intro ?_ ?_ <;> linarith)
      | (obtain ⟨ha, hb⟩ := triangle_bounds_neg (neg_nonpos.mpr p21) (neg_nonneg.mpr p22.le)
           (neg_nonneg.mpr p11.le); refine And.intro ?_ ?_ <;> linarith)
      | (obtain ⟨ha, hb⟩ := trapezoid_bounds p11 p12 p21 p22;
         refine And.intro ?_ ?_ <;> linarith)
      | (obtain ⟨ha, hb⟩ := trapezoid_bounds p12 p22 p11 p21;
         refine And.intro ?_ ?_ <;> linarith)
      | (obtain ⟨ha, hb⟩ := trapezoid_bounds p11 p21 p12 p22;
         refine And.intro ?_ ?_ <;> linarith)
      | (obtain ⟨ha, hb⟩ := trapezoid_bounds p21 p22 p11 p12;
         refine And.intro ?_ ?_ <;> linarith)
      | (obtain ⟨ha, hb⟩ := triangle_bounds_pos p12 p11.le p22.le;
         obtain ⟨hc, hd⟩ := triangle_bounds_pos p21 p22.le p11.le;
         refine And.intro ?_ ?_ <;> linarith)
      | (obtain ⟨ha, hb⟩ := triangle_bounds_pos p11 p21.le p12.le;
         obtain ⟨hc, hd⟩ := triangle_bounds_pos p22 p12.le p21.le;
         refine And.intro ?_ ?_ <;> linarith)

/-- The clamp applied by `fillSolidFields` to `1 - occupancy`: the
result is either exactly 0 or in [0.01, 1]. -/
theorem volClamp_cases {α : Type} [LinearOrderedField α] (x : α) (h0 : 0 ≤ x) (h1 : x ≤ 1) :
    (if 1 - x < 1/100 then (0 : α) else 1 - x) = 0 ∨
      (1/100 ≤ (if 1 - x < 1/100 then (0 : α) else 1 - x) ∧
        (if 1 - x < 1/100 then (0 : α) else 1 - x) ≤ 1) := by
  split
  · exact Or.inl rfl
  · next hno => exact Or.inr ⟨by linarith [not_lt.mp hno], by linarith⟩

/-- C9: after `fillSolidFields`, starting from the constructor state
where every volume is 1, every entry of the volume array is either
exactly 0 or lies in [0.01, 1]; the occupancy value is in [0, 1] for
every corner quartet, the fraction `1 - occupancy` is clamped to 0 below
0.01, and with an empty body list the volumes keep their initial value
1. -/
theorem c9_volume_bounds {α : Type} [LinearOrderedField α] (q : FluidQuantity α)
    (bodies : List (SolidBody α)) (hvol : ∀ i, q.volume i = 1) (i : ℤ) :
    ((q.fillSolidFields bodies).volume i = 0 ∨
      (1/100 ≤ (q.fillSolidFields bodies).volume i ∧
        (q.fillSolidFields bodies).volume i ≤ 1)) ∧
    (q.fillSolidFields []).volume i = 1 := by
  constructor
  · match bodies with
    | [] =>
      right
      rw [show (q.fillSolidFields []).volume i = q.volume i from rfl, hvol i]
      norm_num
    | b0 :: rest =>
      simp only [FluidQuantity.fillSolidFields]
      by_cases hc : 0 ≤ i ∧ i < (q.w : ℤ) * (q.h : ℤ)
      · rw [if_pos hc]
        exact volClamp_cases _ (occupancy_bounds _ _ _ _).1 (occupancy_bounds _ _ _ _).2
      · rw [if_neg hc, hvol i]
        right
        norm_num
  · rw [show (q.fillSolidFields []).volume i = q.volume i from rfl]
    exact hvol i

/-- C9, witness: the volume bound instantiated on a concrete 1x1 grid
with the half-space body. -/
theorem c9_witness :
    ((FluidQuantity.mk0 ℚ 1 1 (1/2) (1/2) 1).fillSolidFields [bodyW]).volume 0 = 0 ∨
      (1/100 ≤ ((FluidQuantity.mk0 ℚ 1 1 (1/2) (1/2) 1).fillSolidFields [bodyW]).volume 0 ∧
        ((FluidQuantity.mk0 ℚ 1 1 (1/2) (1/2) 1).fillSolidFields [bodyW]).volume 0 ≤ 1) :=
  (c9_volume_bounds (FluidQuantity.mk0 ℚ 1 1 (1/2) (1/2) 1) [bodyW] (fun _ => rfl) 0).1

/-! ### Claim C10: lerp is total and reads only in-bounds samples -/

/-- C10: for every grid with width and height at least 2 and every
input (x, y), the clamped base indices of `FluidQuantity.lerp` satisfy
`0 ≤ ix ≤ w - 2` and `0 ≤ iy ≤ h - 2`, so the four accessed samples are
inside the `w*h` array, the interpolation fractions lie in [0, 1), and
the result is the bilinear (convex) combination of those four
samples. -/
theorem c10_lerp_safe {α : Type} [LinearOrderedField α] [FloorRing α] (q : FluidQuantity α)
    (hw : 2 ≤ q.w) (hh : 2 ≤ q.h) (x y : α) :
    ∃ ix iy : ℤ, ∃ fx fy : α,
      0 ≤ ix ∧ ix ≤ (q.w : ℤ) - 2 ∧ 0 ≤ iy ∧ iy ≤ (q.h : ℤ) - 2 ∧
      0 ≤ fx ∧ fx < 1 ∧ 0 ≤ fy ∧ fy < 1 ∧
      q.lerp x y =
        lerp1 (lerp1 (q.atG ix iy) (q.atG (ix + 1) iy) fx)
          (lerp1 (q.atG ix (iy + 1)) (q.atG (ix + 1) (iy + 1)) fx) fy := by
  have hw' : (2 : α) ≤ (q.w : α) := by exact_mod_cast hw
  have hh' : (2 : α) ≤ (q.h : α) := by exact_mod_cast hh
  set x1 := min (max (x - q.ox) 0) ((q.w : α) - 1001/1000) with hx1
  set y1 := min (max (y - q.oy) 0) ((q.h : α) - 1001/1000) with hy1
  have h0x : 0 ≤ x1 := le_min (le_max_right _ _) (by linarith)
  have h0y : 0 ≤ y1 := le_min (le_max_right _ _) (by linarith)
  have htx : trunc x1 = ⌊x1⌋ := if_neg (not_lt.mpr h0x)
  have hty : trunc y1 = ⌊y1⌋ := if_neg (not_lt.mpr h0y)
  have hwe : ⌊(q.w : α) - 1001/1000⌋ = (q.w : ℤ) - 2 := by
    rw [Int.floor_eq_iff]
    constructor
    · push_cast
      linarith
    · push_cast
      linarith
  have hhe : ⌊(q.h : α) - 1001/1000⌋ = (q.h : ℤ) - 2 := by
    rw [Int.floor_eq_iff]
    constructor
    · push_cast
      linarith
    · push_cast
      linarith
  have hxu : ⌊x1⌋ ≤ (q.w : ℤ) - 2 := by
    have h1 := Int.floor_le_floor (min_le_right (max (x - q.ox) 0) ((q.w : α) - 1001/1000))
    rw [hwe] at h1
    exact h1
  have hyu : ⌊y1⌋ ≤ (q.h : ℤ) - 2 := by
    have h1 := Int.floor_le_floor (min_le_right (max (y - q.oy) 0) ((q.h : α) - 1001/1000))
    rw [hhe] at h1
    exact h1
  refine ⟨⌊x1⌋, ⌊y1⌋, Int.fract x1, Int.fract y1,
    Int.floor_nonneg.mpr h0x, hxu, Int.floor_nonneg.mpr h0y, hyu,
    Int.fract_nonneg x1, Int.fract_lt_one x1, Int.fract_nonneg y1, Int.fract_lt_one y1, ?_⟩
  simp only [FluidQuantity.lerp, ← hx1, ← hy1, htx, hty, add_zero, Int.fract]

/-- C10, witness: the lerp safety theorem instantiated on a concrete
2x2 grid at the far-out-of-domain input (5, -7). -/
theorem c10_witness :
    ∃ ix iy : ℤ, ∃ fx fy : ℚ,
      0 ≤ ix ∧ ix ≤ ((FluidQuantity.mk0 ℚ 2 2 (1/2) (1/2) 1).w : ℤ) - 2 ∧
      0 ≤ iy ∧ iy ≤ ((FluidQuantity.mk0 ℚ 2 2 (1/2) (1/2) 1).h : ℤ) - 2 ∧
      0 ≤ fx ∧ fx < 1 ∧ 0 ≤ fy ∧ fy < 1 ∧
      (FluidQuantity.mk0 ℚ 2 2 (1/2) (1/2) 1).lerp 5 (-7) =
        lerp1 (lerp1 ((FluidQuantity.mk0 ℚ 2 2 (1/2) (1/2) 1).atG ix iy)
            ((FluidQuantity.mk0 ℚ 2 2 (1/2) (1/2) 1).atG (ix + 1) iy) fx)
          (lerp1 ((FluidQuantity.mk0 ℚ 2 2 (1/2) (1/2) 1).atG ix (iy + 1))
            ((FluidQuantity.mk0 ℚ 2 2 (1/2) (1/2) 1).atG (ix + 1) (iy + 1)) fx) fy :=
  c10_lerp_safe (FluidQuantity.mk0 ℚ 2 2 (1/2) (1/2) 1) (by decide) (by decide) 5 (-7)

/-! ### Claim C8: FLIP round trip -/

/-- C8: `undiff(alpha)` is the exact inverse of `diff(alpha)` on the
`src` buffer for every alpha (in particular after `copy`), and after
`gridToParticles(1)` every active particle holds exactly
`q.lerp(posX, posY)` for each registered quantity, whatever its previous
property value was. -/
theorem c8_flip_roundtrip {α : Type} [LinearOrderedField α] [FloorRing α]
    (a : α) (q : FluidQuantity α) (quantities : List (FluidQuantity α)) (count : ℕ)
    (posX posY : ℕ → α) (props : ℕ → ℕ → α) :
    ((q.copy.diff a).undiff a).src = q.src ∧
    (∀ t i, t < quantities.length → i < count →
      gridToParticles 1 quantities count posX posY props t i =
        (quantities.getD t (FluidQuantity.mk0 α 0 0 0 0 0)).lerp (posX i) (posY i)) := by
  constructor
  · funext j
    simp only [FluidQuantity.copy, FluidQuantity.diff, FluidQuantity.undiff]
    by_cases hc : 0 ≤ j ∧ j < (q.w : ℤ) * (q.h : ℤ)
    · simp only [if_pos hc]
      ring
    · simp only [if_neg hc]
  · intro t i ht hi
    simp only [gridToParticles, if_pos (And.intro ht hi)]
    ring

/-- C8, witness: the round trip instantiated at alpha = 1/2, a 2x2 grid
whose src holds the index value, one particle and one registered
quantity. -/
theorem c8_witness :
    ((({ FluidQuantity.mk0 ℚ 2 2 (1/2) (1/2) 1 with src := fun j => (j : ℚ) }).copy.diff
        (1/2)).undiff (1/2)).src =
      ({ FluidQuantity.mk0 ℚ 2 2 (1/2) (1/2) 1 with src := fun j => (j : ℚ) } :
        FluidQuantity ℚ).src ∧
    gridToParticles 1 [{ FluidQuantity.mk0 ℚ 2 2 (1/2) (1/2) 1 with src := fun j => (j : ℚ) }]
        1 (fun _ => 7/10) (fun _ => 9/10) (fun _ _ => 3) 0 0 =
      ({ FluidQuantity.mk0 ℚ 2 2 (1/2) (1/2) 1 with src := fun j => (j : ℚ) } :
        FluidQuantity ℚ).lerp (7/10) (9/10) := by
  obtain ⟨h1, h2⟩ := c8_flip_roundtrip (1/2)
    { FluidQuantity.mk0 ℚ 2 2 (1/2) (1/2) 1 with src := fun j => (j : ℚ) }
    [{ FluidQuantity.mk0 ℚ 2 2 (1/2) (1/2) 1 with src := fun j => (j : ℚ) }]
    1 (fun _ => 7/10) (fun _ => 9/10) (fun _ _ => 3)
  exact ⟨h1, h2 0 0 (by decide) (by decide)⟩

/-! ### Claim C2: the +y face density index in buildPressureMatrix -/

/-- C2, code bug: on a concrete 2x2 all-FLUID grid with unit volumes,
`timestep = hx = 1` and `vDensity[i] = i + 1`, the source computes
`aPlusY[0]` by reading `vDensity` through the u-grid stride
(`_u->idx(0, 1) = 3`), giving `-1/4`, whereas the value claimed by the
spec reads the v-grid index (`_v->idx(0, 1) = 2`) and equals `-1/3`:
the two differ, so `buildPressureMatrix` does not implement the claimed
formula. -/
theorem c2_code_bug :
    (buildPressureMatrix 2 2 1 1 (fun _ => CellType.FLUID)
        (FluidQuantity.mk0 ℚ 3 2 0 (1/2) 1) (FluidQuantity.mk0 ℚ 2 3 (1/2) 0 1)
        (fun _ => 1) (fun i => (i : ℚ) + 1)).aPlusY 0 = -(1/4) ∧
      -(1/4 : ℚ) ≠
        -(1 * (FluidQuantity.mk0 ℚ 2 3 (1/2) 0 1).volumeAt 0 1 /
            ((fun i => (i : ℚ) + 1) ((FluidQuantity.mk0 ℚ 2 3 (1/2) 0 1).idx 0 1)) / (1 * 1)) := by
  constructor
  · have h2 : intRange 0 2 = [0, 1] := by decide
    norm_num [buildPressureMatrix, h2, FluidQuantity.volumeAt, FluidQuantity.idx,
      FluidQuantity.mk0, upd, bump]
  · norm_num [FluidQuantity.volumeAt, FluidQuantity.idx, FluidQuantity.mk0]

/-! ### Claim C3: solid boundary stamping of the v faces -/

/-- C3, code bug: on a 1x3 grid with the single interior SOLID cell
(0, 1) owned by a body of rigid velocity (0, 1) and no rotation,
`setBoundaryCondition` writes the v-face at (0, 1) with
`velocityX(hx/2, hx) = 0` (the source calls `velocityX` for the
v-faces), while the y-component of the rigid velocity at that face
center is `velocityY(1/2, 1) = 1`: the stamped v value is not the
y-component the claim requires. -/
theorem c3_code_bug :
    (setBoundaryCondition 1 3 1 (fun i => if i = 1 then CellType.SOLID else CellType.FLUID)
        (fun _ => 0) [bodyC3] (FluidQuantity.mk0 ℚ 2 3 0 (1/2) 1)
        (FluidQuantity.mk0 ℚ 1 4 (1/2) 0 1)).2.src 1 = 0 ∧
      SolidBody.velocityY bodyC3 (1/2) 1 = 1 ∧ (0 : ℚ) ≠ 1 := by
  refine ⟨?_, ?_, by norm_num⟩
  · have h3 : intRange 0 3 = [0, 1, 2] := by decide
    have h1 : intRange 0 1 = [0] := by decide
    have hFS : (CellType.FLUID = CellType.SOLID) = False := by decide
    have hSS : (CellType.SOLID = CellType.SOLID) = True := by decide
    norm_num [setBoundaryCondition, h3, h1, hFS, hSS, FluidQuantity.setAt,
      FluidQuantity.mk0, upd, SolidBody.velocityX, bodyC3, bodyW]
  · norm_num [SolidBody.velocityY, bodyC3, bodyW]

/-! ### Claim C4: particles and solid penetration after advect -/

theorem lerp_zero {α : Type} [LinearOrderedField α] [FloorRing α] (q : FluidQuantity α)
    (hsrc : ∀ j, q.src j = 0) (x y : α) : q.lerp x y = 0 := by
  simp [FluidQuantity.lerp, FluidQuantity.atG, hsrc, lerp1]

theorem rungeKutta3_zero {α : Type} [LinearOrderedField α] [FloorRing α]
    (hx timestep : α) (u v : FluidQuantity α)
    (hu : ∀ j, u.src j = 0) (hv : ∀ j, v.src j = 0) (x y : α) :
    rungeKutta3 hx timestep u v x y = (x, y) := by
  simp [rungeKutta3, lerp_zero u hu, lerp_zero v hv]

theorem backProject_noop {α : Type} [LinearOrderedField α] (bodies : List (SolidBody α))
    (hx x y : α) (hshallow : ∀ b ∈ bodies, -1 ≤ b.distance (x * hx) (y * hx)) :
    backProject bodies hx x y = (x, y) := by
  have key : ∀ (l : List (ℕ × SolidBody α)) (acc : α × ℕ),
      (∀ p ∈ l, -1 ≤ p.2.distance (x * hx) (y * hx)) → -1 ≤ acc.1 →
      -1 ≤ (l.foldl (fun dc ib =>
        if ib.2.distance (x * hx) (y * hx) < dc.1
        then (ib.2.distance (x * hx) (y * hx), ib.1) else dc) acc).1 := by
    intro l
    induction l with
    | nil => exact fun acc _ hacc => hacc
    | cons p rest ih =>
      intro acc hall hacc
      simp only [List.foldl_cons]
      apply ih
      · exact fun q hq => hall q (List.mem_cons_of_mem _ hq)
      · by_cases hcond : p.2.distance (x * hx) (y * hx) < acc.1
        · rw [if_pos hcond]
          exact hall p (List.mem_cons_self _ _)
        · rw [if_neg hcond]
          exact hacc
  have hd : -1 ≤ (bodies.enum.foldl (fun dc ib =>
      if ib.2.distance (x * hx) (y * hx) < dc.1
      then (ib.2.distance (x * hx) (y * hx), ib.1) else dc) ((10 : α) ^ 30, 0)).1 := by
    apply key
    · intro p hp
      apply hshallow
      have := List.mem_map_of_mem Prod.snd hp
      rwa [List.enum_map_snd] at this
    · have h0 : (0 : α) ≤ (10 : α) ^ 30 := by positivity
      have heq : (((10 : α) ^ 30, (0 : ℕ)) : α × ℕ).1 = (10 : α) ^ 30 := rfl
      rw [heq]
      linarith
  simp only [backProject]
  rw [if_neg (not_lt.mpr hd)]

/-- C4, amended: `backProject` moves a particle only when the minimum
body distance at its world position is below -1 in world units (the
source compares the raw world-space signed distance against -1.0, not
against one cell); consequently, for a particle whose advected position
has all body distances at least -1, `advect` is exactly RK3 followed by
the domain clamp, and the particle may remain inside a body. -/
theorem c4_advect_shallow {α : Type} [LinearOrderedField α] [FloorRing α]
    (w h : ℕ) (hx timestep : α) (u v : FluidQuantity α) (bodies : List (SolidBody α))
    (x y : α)
    (hshallow : ∀ b ∈ bodies,
      -1 ≤ b.distance ((rungeKutta3 hx timestep u v x y).1 * hx)
        ((rungeKutta3 hx timestep u v x y).2 * hx)) :
    advect w h hx timestep u v bodies [(x, y)] =
      [(max (min (rungeKutta3 hx timestep u v x y).1 ((w : α) - 1/1000)) 0,
        max (min (rungeKutta3 hx timestep u v x y).2 ((h : α) - 1/1000)) 0)] := by
  simp only [advect, List.map_cons, List.map_nil]
  rw [backProject_noop bodies hx _ _ hshallow]

/-- C4, witness for the amended theorem: zero velocity grids, a
half-space body, and a particle whose position is half a world unit
deep inside the body; advect leaves it in place. -/
theorem c4_witness :
    advect 2 2 (1/2 : ℚ) (1/400) (FluidQuantity.mk0 ℚ 3 2 0 (1/2) (1/2))
      (FluidQuantity.mk0 ℚ 2 3 (1/2) 0 (1/2)) [bodyC4] [(1, 1)] = [(1, 1)] := by
  have hrk : rungeKutta3 (1/2 : ℚ) (1/400) (FluidQuantity.mk0 ℚ 3 2 0 (1/2) (1/2))
      (FluidQuantity.mk0 ℚ 2 3 (1/2) 0 (1/2)) 1 1 = (1, 1) :=
    rungeKutta3_zero _ _ _ _ (fun _ => rfl) (fun _ => rfl) 1 1
  have h := c4_advect_shallow 2 2 (1/2 : ℚ) (1/400) (FluidQuantity.mk0 ℚ 3 2 0 (1/2) (1/2))
    (FluidQuantity.mk0 ℚ 2 3 (1/2) 0 (1/2)) [bodyC4] 1 1 ?_
  · rw [h, hrk]
    norm_num
  · intro b hb
    rw [List.mem_singleton] at hb
    subst hb
    rw [hrk]
    norm_num [bodyC4, bodyW]

/-- C4, counterexample: with zero velocity fields and a half-space body
solid where the world x coordinate is below 1, the particle at grid
position (50, 50) on a 100x100 grid (world position (0.5, 0.5), hence
half a unit, i.e. 50 cells, deep inside the body) is left exactly in
place by `advect`, and its body distance stays far below `-hx`: a
particle can lie inside a body after advect. -/
theorem c4_counterexample :
    advect 100 100 (1/100 : ℚ) (1/400) (FluidQuantity.mk0 ℚ 101 100 0 (1/2) (1/100))
      (FluidQuantity.mk0 ℚ 100 101 (1/2) 0 (1/100)) [bodyC4] [(50, 50)] = [(50, 50)] ∧
    bodyC4.distance (50 * (1/100)) (50 * (1/100)) < -(1/100) := by
  constructor
  · have hrk : rungeKutta3 (1/100 : ℚ) (1/400) (FluidQuantity.mk0 ℚ 101 100 0 (1/2) (1/100))
        (FluidQuantity.mk0 ℚ 100 101 (1/2) 0 (1/100)) 50 50 = (50, 50) :=
      rungeKutta3_zero _ _ _ _ (fun _ => rfl) (fun _ => rfl) 50 50
    simp only [advect, List.map_cons, List.map_nil]
    rw [hrk]
    rw [backProject_noop [bodyC4] (1/100) 50 50 ?_]
    · norm_num
    · intro b hb
      rw [List.mem_singleton] at hb
      subst hb
      norm_num [bodyC4, bodyW]
  · norm_num [bodyC4, bodyW]

/-! ### Claim C7: the seeding rejection test reads the wrong slot -/

/-- C7, code bug: on a 1x1 grid with an empty cell count, a body
covering the whole cell (solid where the world x coordinate is below 2)
and an existing particle in slot 0 far outside the body, the rejection
test of `seedParticles` reads `posX[idx]`/`posY[idx]` with the CELL
index `idx = 0` (the stored particle at (5, 5)) instead of the freshly
written slot `j`, so all three jittered candidates that land inside the
body are accepted: the count grows from 1 to 4 and the particle in
slot 1 lies inside the body. -/
theorem c7_code_bug :
    (seedParticles 1 1 (1 : ℚ) [bodyC7] [] (fun _ => 0) 12 stC7).particleCount = 4 ∧
    pointInBody [bodyC7] 1
      ((seedParticles 1 1 (1 : ℚ) [bodyC7] [] (fun _ => 0) 12 stC7).posX 1)
      ((seedParticles 1 1 (1 : ℚ) [bodyC7] [] (fun _ => 0) 12 stC7).posY 1) = true := by
  have h1 : intRange 0 1 = [(0 : ℤ)] := by decide
  have h1' : intRange 0 (1 * 1) = [(0 : ℤ)] := by decide
  have hr3 : List.range (Int.toNat 3) = [0, 1, 2] := by decide
  constructor
  · norm_num [seedParticles, h1, h1', hr3, stC7, pointInBody, bodyC7, bodyW, frandStep, frandVal]
  · norm_num [seedParticles, h1, h1', hr3, stC7, pointInBody, bodyC7, bodyW, frandStep, frandVal]

/-! ### Claim C6: addInflow clips the x loop against the height -/

theorem cubicPulse_sqrt_pos {s : ℝ} (h0 : 0 ≤ s) (h1 : s < 1) :
    0 < cubicPulse (Real.sqrt s) := by
  have ht0 : 0 ≤ Real.sqrt s := Real.sqrt_nonneg s
  have ht1 : Real.sqrt s < 1 := (Real.sqrt_lt' one_pos).mpr (by nlinarith)
  have hmin : min |Real.sqrt s| 1 = Real.sqrt s := by
    rw [abs_of_nonneg ht0]
    exact min_eq_left ht1.le
  simp only [cubicPulse, hmin]
  have key : 1 - Real.sqrt s * Real.sqrt s * (3 - 2 * Real.sqrt s)
      = (1 - Real.sqrt s) ^ 2 * (1 + 2 * Real.sqrt s) := by ring
  rw [key]
  apply mul_pos
  · exact pow_pos (by linarith) 2
  · linarith

/-- C6, code bug: on a 4x2 grid with unit cell size, cell-centered
offsets, and the inflow rectangle (0, 0)-(4, 2) covering the whole
domain with value 1, the in-rectangle, in-domain sample (2, 0) is never
visited because the x loop is clipped against the height 2 instead of
the width 4 (`min(ix1, _h)` in the source): its src entry stays 0 even
though the cubic-pulse weight of that sample is positive, so the write
`src = weight*v` required by the claim never happens. -/
theorem c6_code_bug :
    ((FluidQuantity.mk0 ℝ 4 2 (1/2) (1/2) 1).addInflow 0 0 4 2 1).src 2 = 0 ∧
      0 < cubicPulse (length (1/4) (-(1/2))) * 1 := by
  constructor
  · have e1 : trunc (-(1/2) : ℝ) = 0 := by
      simp only [trunc]
      rw [if_pos (by norm_num : (-(1/2) : ℝ) < 0)]
      norm_num [Int.floor_eq_iff]
    have e2 : trunc ((7/2 : ℝ)) = 3 := by
      simp only [trunc]
      rw [if_neg (by norm_num : ¬((7/2 : ℝ) < 0))]
      norm_num [Int.floor_eq_iff]
    have e3 : trunc ((3/2 : ℝ)) = 1 := by
      simp only [trunc]
      rw [if_neg (by norm_num : ¬((3/2 : ℝ) < 0))]
      norm_num [Int.floor_eq_iff]
    have l1 : intRange 0 1 = [(0 : ℤ)] := by decide
    have l2 : intRange 0 2 = [(0 : ℤ), 1] := by decide
    norm_num [FluidQuantity.addInflow, addInflowSrc, FluidQuantity.mk0, e1, e2, e3, l1, l2]
  · have hlen : length (1/4) (-(1/2)) = Real.sqrt (5/16) := by
      norm_num [length]
    rw [hlen, mul_one]
    exact cubicPulse_sqrt_pos (by norm_num) (by norm_num)

theorem foldl_inv {σ β : Type} (P : σ → Prop) (f : σ → β → σ)
    (hstep : ∀ s b, P s → P (f s b)) :
    ∀ (l : List β) (s : σ), P s → P (l.foldl f s) := by
  intro l
  induction l with
  | nil => exact fun s h0 => h0
  | cons b rest ih => exact fun s h0 => ih (f s b) (hstep s b h0)

theorem addSample_snd_zero {α : Type} [LinearOrderedField α]
    (w h : ℕ) (ws : (ℤ → α) × (ℤ → α)) (v x y : α) (ix iy : ℤ)
    (hv : v = 0) (hws : ∀ j, ws.2 j = 0) :
    ∀ j, (addSample w h ws v x y ix iy).2 j = 0 := by
  intro j
  unfold addSample
  split
  · exact hws j
  · simp only [bump]
    split
    · rw [hws j, hv]; ring
    · exact hws j

theorem fromParticlesAccum_snd_zero {α : Type} [LinearOrderedField α] [FloorRing α]
    (w h : ℕ) (ox oy : α) (count : ℕ) (posX posY property : ℕ → α)
    (hp : ∀ i, property i = 0) :
    ∀ j, (fromParticlesAccum w h ox oy count posX posY property).2 j = 0 := by
  unfold fromParticlesAccum
  refine foldl_inv (fun ws : (ℤ → α) × (ℤ → α) => ∀ j, ws.2 j = 0) _ ?_ _ _
    (fun j => rfl)
  intro ws i hws
  exact fun j => addSample_snd_zero _ _ _ _ _ _ _ _ (hp i) (fun k =>
    addSample_snd_zero _ _ _ _ _ _ _ _ (hp i) (fun k2 =>
      addSample_snd_zero _ _ _ _ _ _ _ _ (hp i) (fun k3 =>
        addSample_snd_zero _ _ _ _ _ _ _ _ (hp i) hws k3) k2) k) j

theorem fromParticles_restState {α : Type} [LinearOrderedField α] [FloorRing α]
    (q : FluidQuantity α) (count : ℕ) (posX posY property : ℕ → α)
    (hcell : ∀ j, q.cell j = CellType.FLUID) (hp : ∀ i, property i = 0) :
    restState q.w q.h q.ox q.oy q.hx (q.fromParticles count posX posY property) := by
  have hz := fromParticlesAccum_snd_zero q.w q.h q.ox q.oy count posX posY property hp
  refine ⟨rfl, rfl, rfl, rfl, rfl, ?_, ?_, ?_⟩
  · intro j
    simp only [FluidQuantity.fromParticles]
    split
    · split
      · rw [hz j]; exact zero_div _
      · exact hz j
    · exact hz j
  · intro j
    simp only [FluidQuantity.fromParticles]
    split
    · exact Or.inr rfl
    · exact Or.inl (hcell j)
  · intro j hj
    simp only [FluidQuantity.fromParticles]
    rw [if_neg]
    · exact hcell j
    · intro hcon
      exact hj hcon.1

theorem extrapolateAverage_zero {α : Type} [LinearOrderedField α]
    (q : FluidQuantity α) (j : ℤ) (hsrc : ∀ k, q.src k = 0) :
    q.extrapolateAverage j = 0 := by
  simp [FluidQuantity.extrapolateAverage, hsrc, apply_ite (Prod.fst : α × α → α),
    ite_self]

theorem extrapolateNormal_zero {α : Type} [LinearOrderedField α]
    (q : FluidQuantity α) (j : ℤ) (hsrc : ∀ k, q.src k = 0) :
    q.extrapolateNormal j = 0 := by
  simp [FluidQuantity.extrapolateNormal, hsrc]

theorem freeSolidNeighbour_restState {α : Type} [LinearOrderedField α]
    (w0 h0 : ℕ) (ox0 oy0 hx0 : α) (s : FluidQuantity α × List ℤ) (j : ℤ) (bit : ℕ)
    (hs : restState w0 h0 ox0 oy0 hx0 s.1) :
    restState w0 h0 ox0 oy0 hx0 (FluidQuantity.freeSolidNeighbour s j bit).1 := by
  unfold FluidQuantity.freeSolidNeighbour
  split
  · exact hs
  · exact hs

theorem freeSolid_ite_restState {α : Type} [LinearOrderedField α]
    (w0 h0 : ℕ) (ox0 oy0 hx0 : α) (c : Prop) [Decidable c]
    (s : FluidQuantity α × List ℤ) (j : ℤ) (bit : ℕ)
    (hs : restState w0 h0 ox0 oy0 hx0 s.1) :
    restState w0 h0 ox0 oy0 hx0
      (if c then FluidQuantity.freeSolidNeighbour s j bit else s).1 := by
  split
  · exact freeSolidNeighbour_restState _ _ _ _ _ _ _ _ hs
  · exact hs

theorem freeEmptyNeighbour_restState {α : Type} [LinearOrderedField α]
    (w0 h0 : ℕ) (ox0 oy0 hx0 : α) (s : FluidQuantity α × List ℤ) (j : ℤ)
    (hs : restState w0 h0 ox0 oy0 hx0 s.1) :
    restState w0 h0 ox0 oy0 hx0 (FluidQuantity.freeEmptyNeighbour s j).1 := by
  unfold FluidQuantity.freeEmptyNeighbour
  split
  · split
    · exact hs
    · exact hs
  · exact hs

theorem extrapolateStep_restState {α : Type} [LinearOrderedField α]
    (w0 h0 : ℕ) (ox0 oy0 hx0 : α) (q : FluidQuantity α) (j : ℤ) (rest : List ℤ)
    (hq : restState w0 h0 ox0 oy0 hx0 q) :
    restState w0 h0 ox0 oy0 hx0 (FluidQuantity.extrapolateStep q j rest).1 := by
  obtain ⟨hw, hh, hox, hoy, hhx, hsrc, hcell, hout⟩ := hq
  have hq1 : restState w0 h0 ox0 oy0 hx0
      (if q.cell j = CellType.EMPTY then
        { q with src := upd q.src j (q.extrapolateAverage j),
                 cell := fun k => if k = j then CellType.FLUID else q.cell k }
      else { q with src := upd q.src j (q.extrapolateNormal j) }) := by
    split
    · refine ⟨hw, hh, hox, hoy, hhx, ?_, ?_, ?_⟩
      · intro k
        simp only [upd]
        split
        · exact extrapolateAverage_zero q j hsrc
        · exact hsrc k
      · intro k
        dsimp only
        split
        · exact Or.inl rfl
        · exact hcell k
      · intro k hk
        dsimp only
        split
        · rfl
        · exact hout k hk
    · refine ⟨hw, hh, hox, hoy, hhx, ?_, hcell, hout⟩
      intro k
      simp only [upd]
      split
      · exact extrapolateNormal_zero q j hsrc
      · exact hsrc k
  simp only [FluidQuantity.extrapolateStep]
  exact freeEmptyNeighbour_restState _ _ _ _ _ _ _
    (freeEmptyNeighbour_restState _ _ _ _ _ _ _
      (freeEmptyNeighbour_restState _ _ _ _ _ _ _
        (freeEmptyNeighbour_restState _ _ _ _ _ _ _
          (freeSolid_ite_restState _ _ _ _ _ _ _ _ _
            (freeSolid_ite_restState _ _ _ _ _ _ _ _ _
              (freeSolid_ite_restState _ _ _ _ _ _ _ _ _
                (freeSolid_ite_restState _ _ _ _ _ _ _ _ _ hq1)))))))

theorem extrapolateLoop_restState {α : Type} [LinearOrderedField α]
    (w0 h0 : ℕ) (ox0 oy0 hx0 : α) :
    ∀ (fuel : ℕ) (s : FluidQuantity α × List ℤ),
      restState w0 h0 ox0 oy0 hx0 s.1 →
      restState w0 h0 ox0 oy0 hx0 (FluidQuantity.extrapolateLoop fuel s) := by
  intro fuel
  induction fuel with
  | zero => exact fun s hs => hs
  | succ n ih =>
    intro s hs
    obtain ⟨q, st⟩ := s
    cases st with
    | nil => exact hs
    | cons j rest =>
      exact ih _ (extrapolateStep_restState _ _ _ _ _ _ _ _ hs)

theorem srcCopy_ite_restState {α : Type} [LinearOrderedField α]
    (w0 h0 : ℕ) (ox0 oy0 hx0 : α) (s : FluidQuantity α) (i k : ℤ)
    (hs : restState w0 h0 ox0 oy0 hx0 s) :
    restState w0 h0 ox0 oy0 hx0
      (if s.cell i = CellType.EMPTY then
        { s with src := upd s.src i (s.src k) } else s) := by
  obtain ⟨hw, hh, hox, hoy, hhx, hsrc, hcell, hout⟩ := hs
  split
  · refine ⟨hw, hh, hox, hoy, hhx, ?_, hcell, hout⟩
    intro m
    simp only [upd]
    split
    · exact hsrc _
    · exact hsrc m
  · exact ⟨hw, hh, hox, hoy, hhx, hsrc, hcell, hout⟩

theorem ebStepTB_restState {α : Type} [LinearOrderedField α]
    (w0 h0 : ℕ) (ox0 oy0 hx0 : α) (wI hI : ℤ) (s : FluidQuantity α) (x : ℤ)
    (hs : restState w0 h0 ox0 oy0 hx0 s) :
    restState w0 h0 ox0 oy0 hx0 (ebStepTB wI hI s x) := by
  unfold ebStepTB
  dsimp only
  exact srcCopy_ite_restState _ _ _ _ _ _ _ _
    (srcCopy_ite_restState _ _ _ _ _ _ _ _ hs)

theorem ebStepLR_restState {α : Type} [LinearOrderedField α]
    (w0 h0 : ℕ) (ox0 oy0 hx0 : α) (wI : ℤ) (s : FluidQuantity α) (y : ℤ)
    (hs : restState w0 h0 ox0 oy0 hx0 s) :
    restState w0 h0 ox0 oy0 hx0 (ebStepLR wI s y) := by
  unfold ebStepLR
  dsimp only
  exact srcCopy_ite_restState _ _ _ _ _ _ _ _
    (srcCopy_ite_restState _ _ _ _ _ _ _ _ hs)

theorem ebCorner_restState {α : Type} [LinearOrderedField α]
    (w0 h0 : ℕ) (ox0 oy0 hx0 : α) (s : FluidQuantity α) (i a b : ℤ)
    (hs : restState w0 h0 ox0 oy0 hx0 s) :
    restState w0 h0 ox0 oy0 hx0 (ebCorner s i a b) := by
  obtain ⟨hw, hh, hox, hoy, hhx, hsrc, hcell, hout⟩ := hs
  unfold ebCorner
  split
  · refine ⟨hw, hh, hox, hoy, hhx, ?_, hcell, hout⟩
    intro k
    simp only [upd]
    split
    · rw [hsrc a, hsrc b]; ring
    · exact hsrc k
  · exact ⟨hw, hh, hox, hoy, hhx, hsrc, hcell, hout⟩

theorem ebCorners_restState {α : Type} [LinearOrderedField α]
    (w0 h0 : ℕ) (ox0 oy0 hx0 : α) (wI hI : ℤ) (q2 : FluidQuantity α)
    (hq : restState w0 h0 ox0 oy0 hx0 q2) :
    restState w0 h0 ox0 oy0 hx0 (ebCorners wI hI q2) := by
  unfold ebCorners
  exact ebCorner_restState _ _ _ _ _ _ _ _ _
    (ebCorner_restState _ _ _ _ _ _ _ _ _
      (ebCorner_restState _ _ _ _ _ _ _ _ _
        (ebCorner_restState _ _ _ _ _ _ _ _ _ hq)))

theorem ebFinal_restState {α : Type} [LinearOrderedField α]
    (w0 h0 : ℕ) (ox0 oy0 hx0 : α) (wI hI : ℤ)
    (hwI : wI = (w0 : ℤ)) (hhI : hI = (h0 : ℤ)) (Q : FluidQuantity α)
    (hQ : restState w0 h0 ox0 oy0 hx0 Q) :
    restState w0 h0 ox0 oy0 hx0 (ebFinalize wI hI Q) ∧
    (∀ j, (ebFinalize wI hI Q).cell j = CellType.FLUID) := by
  obtain ⟨hw, hh, hox, hoy, hhx, hsrc, hcell, hout⟩ := hQ
  unfold ebFinalize
  constructor
  · refine ⟨hw, hh, hox, hoy, hhx, hsrc, ?_, ?_⟩
    · intro j
      dsimp only
      split
      · exact Or.inl rfl
      · exact hcell j
    · intro j hj
      dsimp only
      split
      · rfl
      · exact hout j hj
  · intro j
    dsimp only
    split
    · rfl
    next hcond =>
      rcases hcell j with hF | hE
      · exact hF
      · by_cases hr : 0 ≤ j ∧ j < wI * hI
        · exact absurd ⟨hr.1, hr.2, hE⟩ hcond
        · rw [hwI, hhI] at hr
          rw [hout j hr] at hE
          exact absurd hE (by decide)

theorem extrapolateEmptyBorders_restState {α : Type} [LinearOrderedField α]
    (w0 h0 : ℕ) (ox0 oy0 hx0 : α) (q0 : FluidQuantity α)
    (hq : restState w0 h0 ox0 oy0 hx0 q0) :
    restState w0 h0 ox0 oy0 hx0 (q0.extrapolateEmptyBorders) ∧
      (∀ j, (q0.extrapolateEmptyBorders).cell j = CellType.FLUID) := by
  have hw0 : q0.w = w0 := hq.1
  have hh0 : q0.h = h0 := hq.2.1
  unfold FluidQuantity.extrapolateEmptyBorders
  dsimp only
  have h6 := ebCorners_restState w0 h0 ox0 oy0 hx0 ((q0.w : ℤ)) ((q0.h : ℤ))
    ((intRange 1 ((q0.h : ℤ) - 1)).foldl (ebStepLR ((q0.w : ℤ)))
      ((intRange 1 ((q0.w : ℤ) - 1)).foldl (ebStepTB ((q0.w : ℤ)) ((q0.h : ℤ))) q0))
    (foldl_inv (restState w0 h0 ox0 oy0 hx0) (ebStepLR ((q0.w : ℤ)))
      (fun s y hs => ebStepLR_restState _ _ _ _ _ _ _ _ hs)
      (intRange 1 ((q0.h : ℤ) - 1)) _
      (foldl_inv (restState w0 h0 ox0 oy0 hx0) (ebStepTB ((q0.w : ℤ)) ((q0.h : ℤ)))
        (fun s x hs => ebStepTB_restState _ _ _ _ _ _ _ _ _ hs)
        (intRange 1 ((q0.w : ℤ) - 1)) q0 hq))
  exact ebFinal_restState w0 h0 ox0 oy0 hx0 ((q0.w : ℤ)) ((q0.h : ℤ))
    (by rw [hw0]) (by rw [hh0]) _ h6

theorem extrapolate_restState {α : Type} [LinearOrderedField α]
    (w0 h0 : ℕ) (ox0 oy0 hx0 : α) (q : FluidQuantity α)
    (hq : restState w0 h0 ox0 oy0 hx0 q) :
    restState w0 h0 ox0 oy0 hx0 q.extrapolate ∧
      (∀ j, q.extrapolate.cell j = CellType.FLUID) := by
  unfold FluidQuantity.extrapolate
  dsimp only
  refine extrapolateEmptyBorders_restState w0 h0 ox0 oy0 hx0 _ ?_
  refine extrapolateLoop_restState w0 h0 ox0 oy0 hx0 _ _ ?_
  exact hq

theorem extrapolateBorder_allFluid {α : Type} [LinearOrderedField α]
    (q : FluidQuantity α) (hcell : ∀ j, q.cell j = CellType.FLUID) :
    q.extrapolateBorder = [] := by
  unfold FluidQuantity.extrapolateBorder
  refine foldl_inv (fun st => st = []) _ ?_ _ _ rfl
  intro st y hst
  refine foldl_inv (fun st2 => st2 = []) _ ?_ _ _ hst
  intro st2 x hst2
  dsimp only
  rw [if_neg]
  · exact hst2
  · intro hcon
    exact hcon.1 (hcell _)

theorem extrapolateLoop_nil {α : Type} [LinearOrderedField α]
    (fuel : ℕ) (q : FluidQuantity α) :
    FluidQuantity.extrapolateLoop fuel (q, ([] : List ℤ)) = q := by
  cases fuel <;> rfl

theorem ebStepTB_id {α : Type} [LinearOrderedField α] (wI hI : ℤ)
    (q : FluidQuantity α) (hcell : ∀ j, q.cell j = CellType.FLUID) (x : ℤ) :
    ebStepTB wI hI q x = q := by
  simp [ebStepTB, hcell]

theorem ebStepLR_id {α : Type} [LinearOrderedField α] (wI : ℤ)
    (q : FluidQuantity α) (hcell : ∀ j, q.cell j = CellType.FLUID) (y : ℤ) :
    ebStepLR wI q y = q := by
  simp [ebStepLR, hcell]

theorem ebCorner_id {α : Type} [LinearOrderedField α]
    (q : FluidQuantity α) (hcell : ∀ j, q.cell j = CellType.FLUID) (i a b : ℤ) :
    ebCorner q i a b = q := by
  simp [ebCorner, hcell]

theorem ebCorners_id {α : Type} [LinearOrderedField α] (wI hI : ℤ)
    (q : FluidQuantity α) (hcell : ∀ j, q.cell j = CellType.FLUID) :
    ebCorners wI hI q = q := by
  unfold ebCorners
  dsimp only
  rw [ebCorner_id q hcell, ebCorner_id q hcell, ebCorner_id q hcell,
    ebCorner_id q hcell]

theorem extrapolateEmptyBorders_allFluid {α : Type} [LinearOrderedField α]
    (q : FluidQuantity α) (hcell : ∀ j, q.cell j = CellType.FLUID) :
    (q.extrapolateEmptyBorders).src = q.src := by
  unfold FluidQuantity.extrapolateEmptyBorders
  dsimp only
  have h1 : ((intRange 1 ((q.w : ℤ) - 1)).foldl (ebStepTB (q.w : ℤ) (q.h : ℤ)) q) = q :=
    foldl_inv (fun s => s = q) _
      (fun s x hs => by rw [hs]; exact ebStepTB_id _ _ _ hcell x) _ _ rfl
  rw [h1]
  have h2 : ((intRange 1 ((q.h : ℤ) - 1)).foldl (ebStepLR (q.w : ℤ)) q) = q :=
    foldl_inv (fun s => s = q) _
      (fun s y hs => by rw [hs]; exact ebStepLR_id _ _ hcell y) _ _ rfl
  rw [h2, ebCorners_id _ _ _ hcell]
  rfl

theorem extrapolate_allFluid_src {α : Type} [LinearOrderedField α]
    (q : FluidQuantity α) (hcell : ∀ j, q.cell j = CellType.FLUID) :
    (q.extrapolate).src = q.src := by
  unfold FluidQuantity.extrapolate
  dsimp only
  have hb : (q.fillSolidMask).extrapolateBorder = [] :=
    extrapolateBorder_allFluid _ (fun j => hcell j)
  rw [hb, extrapolateLoop_nil]
  exact extrapolateEmptyBorders_allFluid _ (fun j => hcell j)

theorem undiff_diff_src {α : Type} [LinearOrderedField α]
    (q : FluidQuantity α) (a : α) :
    ((q.diff a).undiff a).src = q.src := by
  funext j
  simp only [FluidQuantity.undiff, FluidQuantity.diff]
  by_cases hP : 0 ≤ j ∧ j < (q.w : ℤ) * (q.h : ℤ)
  · rw [if_pos hP, if_pos hP]
    ring
  · rw [if_neg hP, if_neg hP]

theorem updateDensity_src_noBody (count : ℕ) (posX posY propD : ℕ → ℝ)
    (q : FluidQuantity ℝ)
    (hcell : ∀ j, q.cell j = CellType.FLUID) (hprop : ∀ i, propD i = 0) :
    (updateDensity [] count posX posY propD q).src =
      addInflowSrc q.w q.h q.ox q.oy q.hx (45/100) (2/10) (65/100) (25/100) 1
        (fun _ => 0) := by
  unfold updateDensity
  dsimp only
  simp only [FluidQuantity.fillSolidFields]
  obtain ⟨⟨hw2, hh2, hox2, hoy2, hhx2, hsrc2, hcell2or, hout2⟩, hcell2⟩ :=
    extrapolate_restState q.w q.h q.ox q.oy q.hx
      (q.fromParticles count posX posY propD)
      (fromParticles_restState q count posX posY propD hcell hprop)
  rw [undiff_diff_src]
  have hcellQ4 : ∀ j,
      ((((q.fromParticles count posX posY propD).extrapolate).copy.addInflow
        (45/100) (2/10) (65/100) (25/100) 1)).cell j = CellType.FLUID :=
    fun j => hcell2 j
  rw [extrapolate_allFluid_src _ hcellQ4]
  have hs2 : ((q.fromParticles count posX posY propD).extrapolate).src =
      (fun _ => (0 : ℝ)) := funext hsrc2
  simp only [FluidQuantity.addInflow, FluidQuantity.copy]
  rw [hw2, hh2, hox2, hoy2, hhx2, hs2]

/-- C1, corrected: with no solid bodies and the density grid entirely
FLUID, one `update` does NOT leave the density identically zero: the
density source buffer after the step equals exactly the built-in inflow
stamp `addInflow(0.45, 0.2, 0.2, 0.05, 1.0)` applied to the zero field,
because `update` itself calls `addInflow` each step.  This holds for
every particle configuration whose density samples are all zero, in
particular for the seeded at-rest initial state. -/
theorem c1_density_after_update (count : ℕ) (posX posY propD : ℕ → ℝ)
    (q : FluidQuantity ℝ)
    (hcell : ∀ j, q.cell j = CellType.FLUID) (hprop : ∀ i, propD i = 0) :
    (updateDensity [] count posX posY propD q).src =
      addInflowSrc q.w q.h q.ox q.oy q.hx (45/100) (2/10) (65/100) (25/100) 1
        (fun _ => 0) :=
  updateDensity_src_noBody count posX posY propD q hcell hprop

theorem c1_witness :
    (updateDensity [] 0 (fun _ => 0) (fun _ => 0) (fun _ => 0)
        (FluidQuantity.mk0 ℝ 2 2 (1/2) (1/2) (1/2))).src =
      addInflowSrc (FluidQuantity.mk0 ℝ 2 2 (1/2) (1/2) (1/2)).w
        (FluidQuantity.mk0 ℝ 2 2 (1/2) (1/2) (1/2)).h
        (FluidQuantity.mk0 ℝ 2 2 (1/2) (1/2) (1/2)).ox
        (FluidQuantity.mk0 ℝ 2 2 (1/2) (1/2) (1/2)).oy
        (FluidQuantity.mk0 ℝ 2 2 (1/2) (1/2) (1/2)).hx
        (45/100) (2/10) (65/100) (25/100) 1 (fun _ => 0) :=
  c1_density_after_update 0 (fun _ => 0) (fun _ => 0) (fun _ => 0)
    (FluidQuantity.mk0 ℝ 2 2 (1/2) (1/2) (1/2)) (fun _ => rfl) (fun _ => rfl)

/-- C1, counterexample to the original claim: on the 22x22 density grid
of the reference `main` (`hx = 1/22`), starting at rest (density zero,
all cells FLUID, no bodies) with the constructor-seeded particle
positions and all particle density samples zero, one `update` leaves a
NONZERO density at cell (12, 4) (flat index 100): the built-in inflow
stamp inside `update` writes `cubicPulse(...)*1 > 0` there, so
`norm(d, inf) = 0` fails and `update` does write an inflow. -/
theorem c1_counterexample :
    (updateDensity []
        (initParticles 22 22 ((1 : ℝ)/22) [] 3735928559).particleCount
        (initParticles 22 22 ((1 : ℝ)/22) [] 3735928559).posX
        (initParticles 22 22 ((1 : ℝ)/22) [] 3735928559).posY
        (fun _ => 0) (FluidQuantity.mk0 ℝ 22 22 (1/2) (1/2) (1/22))).src 100 ≠ 0 := by
  rw [updateDensity_src_noBody _ _ _ _ _ (fun _ => rfl) (fun _ => rfl)]
  have t1 : trunc ((47/5 : ℝ)) = 9 := by
    simp only [trunc]
    rw [if_neg (by norm_num : ¬((47/5 : ℝ) < 0))]
    norm_num [Int.floor_eq_iff]
  have t2 : trunc ((39/10 : ℝ)) = 3 := by
    simp only [trunc]
    rw [if_neg (by norm_num : ¬((39/10 : ℝ) < 0))]
    norm_num [Int.floor_eq_iff]
  have t3 : trunc ((69/5 : ℝ)) = 13 := by
    simp only [trunc]
    rw [if_neg (by norm_num : ¬((69/5 : ℝ) < 0))]
    norm_num [Int.floor_eq_iff]
  have t4 : trunc ((5 : ℝ)) = 5 := by
    simp only [trunc]
    rw [if_neg (by norm_num : ¬((5 : ℝ) < 0))]
    norm_num [Int.floor_eq_iff]
  have l1 : intRange 3 5 = [(3 : ℤ), 4] := by decide
  have l2 : intRange 9 13 = [(9 : ℤ), 10, 11, 12] := by decide
  have hlen : length (2/11) (-(9/11)) = Real.sqrt (85/121) := by
    norm_num [length]
  have hpos : 0 < cubicPulse (Real.sqrt (85/121)) :=
    cubicPulse_sqrt_pos (by norm_num) (by norm_num)
  norm_num [addInflowSrc, FluidQuantity.mk0, t1, t2, t3, t4, l1, l2, hlen]
  have hconv : Real.sqrt 85 / Real.sqrt 121 = Real.sqrt (85/121) :=
    (Real.sqrt_div (by norm_num) 121).symm
  rw [hconv]
  exact ne_of_gt hpos

end IncrementalFluids
